import Mathlib

/-!
# Overflow-checked arithmetic of `ILToC/ILtoC/Resources/OverflowChecker.c`

A shallow embedding of the checked add / subtract / multiply routines and of the
range-checked conversions, followed by `Increment_and_align` of `Platform.c`.

* A signed C integer is an `Int`, an unsigned one a `Nat`; the range of the C
  type is a hypothesis of the theorems (`InRange_int64_t` and friends).
* Every wraparound, cast and shift of the C text is explicit
  (`toUnsigned`, `toSigned`, `% 2 ^ 64`).
* A comparison between operands of different signedness goes through `c_lt` /
  `c_gt`, which apply C's usual arithmetic conversions first.
* The out-parameter `int *flag` is one cell of state: each routine receives the
  content of the cell before the call (`flag`) and returns the pair
  `(returned value, content of the cell after the call)`.
-/

set_option linter.unusedVariables false

namespace OverflowChecker

/-! ## `<stdint.h>` limits -/

def INT32_MAX : Int := 2147483647
def INT32_MIN : Int := -2147483648
def INT64_MAX : Int := 9223372036854775807
def INT64_MIN : Int := -9223372036854775808
def UINT32_MAX : Nat := 4294967295
def UINT64_MAX : Nat := 18446744073709551615

/-- Values of the C type `int32_t`. -/
abbrev InRange_int32_t (x : Int) : Prop := INT32_MIN ≤ x ∧ x ≤ INT32_MAX
/-- Values of the C type `int64_t`. -/
abbrev InRange_int64_t (x : Int) : Prop := INT64_MIN ≤ x ∧ x ≤ INT64_MAX
/-- Values of the C type `uint32_t`. -/
abbrev InRange_uint32_t (x : Nat) : Prop := x ≤ UINT32_MAX
/-- Values of the C type `uint64_t`. -/
abbrev InRange_uint64_t (x : Nat) : Prop := x ≤ UINT64_MAX

/-! ## Casts -/

/-- The cast `(uintW_t)x`: reduction modulo `2 ^ w`. -/
def toUnsigned (w : Nat) (x : Int) : Nat := (x % 2 ^ w).toNat

/-- The cast `(intW_t)x` on a two's complement machine: the representative of
`x` modulo `2 ^ w` in `[-2 ^ (w-1), 2 ^ (w-1))`. -/
def toSigned (w : Nat) (x : Int) : Int :=
  if x % 2 ^ w < 2 ^ (w - 1) then x % 2 ^ w else x % 2 ^ w - 2 ^ w

/-! ## Addition -/

/-- Embedding of `int32_t Add_int32_t_int32_t(int32_t lhs, int32_t rhs, int *flag)`.
The sum is formed in `int64_t`, where two `int32_t` values cannot overflow;
`return tmp` converts to the return type `int32_t`. -/
def Add_int32_t_int32_t (lhs rhs : Int) (flag : Int) : Int × Int :=
  let tmp : Int := lhs + rhs
  if tmp ≤ INT32_MAX ∧ tmp ≥ INT32_MIN then
    (toSigned 32 tmp, 0)
  else
    (0, 1)

/-- Embedding of `int64_t Add_int64_t_int64_t(int64_t lhs, int64_t rhs, int *flag)`.
`tmp = (int64_t)((uint64_t)lhs + (uint64_t)rhs)`. -/
def Add_int64_t_int64_t (lhs rhs : Int) (flag : Int) : Int × Int :=
  let tmp : Int := toSigned 64 (((toUnsigned 64 lhs + toUnsigned 64 rhs) % 2 ^ 64 : Nat) : Int)
  if lhs ≥ 0 then
    if rhs ≥ 0 ∧ tmp < lhs then
      (0, 1)
    else
      (tmp, 0)
  else
    if rhs < 0 ∧ tmp > lhs then
      (0, 1)
    else
      (tmp, 0)

/-- Embedding of `uint32_t Add_uint32_t_uint32_t(uint32_t lhs, uint32_t rhs, int *flag)`.
`uint32_t tmp = lhs + rhs` wraps modulo `2 ^ 32`. -/
def Add_uint32_t_uint32_t (lhs rhs : Nat) (flag : Int) : Nat × Int :=
  let tmp : Nat := (lhs + rhs) % 2 ^ 32
  if tmp ≥ rhs ∧ tmp ≤ UINT32_MAX then
    (tmp, 0)
  else
    (0, 1)

/-- Embedding of `uint64_t Add_uint64_t_uint64_t(uint64_t lhs, uint64_t rhs, int *flag)`.
`uint64_t tmp = lhs + rhs` wraps modulo `2 ^ 64`. -/
def Add_uint64_t_uint64_t (lhs rhs : Nat) (flag : Int) : Nat × Int :=
  let tmp : Nat := (lhs + rhs) % 2 ^ 64
  if tmp ≥ rhs ∧ tmp ≤ UINT64_MAX then
    (tmp, 0)
  else
    (0, 1)

/-! ## Subtraction -/

/-- Embedding of `int32_t Subtract_int32_t_int32_t(int32_t lhs, int32_t rhs, int *flag)`.
The source forms `(int64_t)lhs + (int64_t)rhs`. -/
def Subtract_int32_t_int32_t (lhs rhs : Int) (flag : Int) : Int × Int :=
  let tmp : Int := lhs + rhs
  if tmp ≤ INT32_MAX ∧ tmp ≥ INT32_MIN then
    (toSigned 32 tmp, 0)
  else
    (0, 1)

/-- Embedding of `int64_t Subtract_int64_t_int64_t(int64_t lhs, int64_t rhs, int *flag)`.
The source forms `(int64_t)((uint64_t)lhs + (uint64_t)rhs)`. -/
def Subtract_int64_t_int64_t (lhs rhs : Int) (flag : Int) : Int × Int :=
  let tmp : Int := toSigned 64 (((toUnsigned 64 lhs + toUnsigned 64 rhs) % 2 ^ 64 : Nat) : Int)
  if lhs ≥ 0 then
    if rhs ≥ 0 ∧ tmp < lhs then
      (0, 1)
    else
      (tmp, 0)
  else
    if rhs < 0 ∧ tmp > lhs then
      (0, 1)
    else
      (tmp, 0)

/-- Embedding of `uint32_t Subtract_uint32_t_uint32_t(uint32_t lhs, uint32_t rhs, int *flag)`.
`lhs - rhs` is unsigned 32-bit subtraction. -/
def Subtract_uint32_t_uint32_t (lhs rhs : Nat) (flag : Int) : Nat × Int :=
  if rhs ≤ lhs then
    (toUnsigned 32 ((lhs : Int) - (rhs : Int)), 0)
  else
    (0, 1)

/-- Embedding of `uint64_t Subtract_uint64_t_uint64_t(uint64_t lhs, uint64_t rhs, int *flag)`.
`lhs - rhs` is unsigned 64-bit subtraction. -/
def Subtract_uint64_t_uint64_t (lhs rhs : Nat) (flag : Int) : Nat × Int :=
  if rhs ≤ lhs then
    (toUnsigned 64 ((lhs : Int) - (rhs : Int)), 0)
  else
    (0, 1)

/-! ## Multiplication -/

/-- The operator `~` on a `uint64_t`. -/
def complement_uint64_t (x : Nat) : Nat := UINT64_MAX - x

/-- Embedding of `uint64_t getAbsoluteValue_int64_t(int64_t t)`: `~(uint64_t)t + 1`. -/
def getAbsoluteValue_int64_t (t : Int) : Nat :=
  (complement_uint64_t (toUnsigned 64 t) + 1) % 2 ^ 64

/-- Embedding of `int64_t SignedNegation_int64_t(uint64_t val)`: `(int64_t)(~val + 1)`. -/
def SignedNegation_int64_t (val : Nat) : Int :=
  toSigned 64 (((complement_uint64_t val + 1) % 2 ^ 64 : Nat) : Int)

/-- The second half of `Multiply_uint64_t_uint64_t` (from `if(pRet != 0)` to the
final `return`), reached unless both high halves are non-zero: `pRet` is the
cross term computed by the first half. The value returned on success is
`(uint64_t)aLow * (uint64_t)bLow`, as in the source. -/
def Multiply_uint64_t_uint64_t_accumulate (aLow bLow pRet : Nat) (flag : Int) : Nat × Int :=
  if pRet ≠ 0 then
    if (pRet >>> 32) % 2 ^ 32 ≠ 0 then
      (0, 1)
    else
      let pRet1 : Nat := (pRet <<< 32) % 2 ^ 64
      let tmp : Nat := (aLow * bLow) % 2 ^ 64
      let pRet2 : Nat := (pRet1 + tmp) % 2 ^ 64
      if pRet2 < tmp then
        (0, 1)
      else
        ((aLow * bLow) % 2 ^ 64, 0)
  else
    ((aLow * bLow) % 2 ^ 64, 0)

/-- Embedding of `uint64_t Multiply_uint64_t_uint64_t(uint64_t a, uint64_t b, int *flag)`.
The halves are `uint32_t`; the products are formed in `uint64_t`. -/
def Multiply_uint64_t_uint64_t (a b : Nat) (flag : Int) : Nat × Int :=
  let aHigh : Nat := (a >>> 32) % 2 ^ 32
  let aLow : Nat := a % 2 ^ 32
  let bHigh : Nat := (b >>> 32) % 2 ^ 32
  let bLow : Nat := b % 2 ^ 32
  let pRet : Nat := 0
  if aHigh = 0 then
    let pRet : Nat := if bHigh ≠ 0 then (aLow * bHigh) % 2 ^ 64 else pRet
    Multiply_uint64_t_uint64_t_accumulate aLow bLow pRet flag
  else if bHigh = 0 then
    let pRet : Nat := if aHigh ≠ 0 then (aHigh * bLow) % 2 ^ 64 else pRet
    Multiply_uint64_t_uint64_t_accumulate aLow bLow pRet flag
  else
    (0, 1)

/-- Embedding of `int64_t Multiply_int64_t_int64_t(int64_t a, int64_t b, int *flag)`.
`a1`, `b1` are `int64_t`, so the absolute value is cast back to `int64_t` and
again to `uint64_t` at the call; `aNegative ^ bNegative` is bitwise xor. -/
def Multiply_int64_t_int64_t (a b : Int) (flag : Int) : Int × Int :=
  let aNegative : Nat := if a < 0 then 1 else 0
  let a1 : Int := if a < 0 then toSigned 64 (getAbsoluteValue_int64_t a : Int) else a
  let bNegative : Nat := if b < 0 then 1 else 0
  let b1 : Int := if b < 0 then toSigned 64 (getAbsoluteValue_int64_t b : Int) else b
  let r : Nat × Int := Multiply_uint64_t_uint64_t (toUnsigned 64 a1) (toUnsigned 64 b1) flag
  let tmp : Nat := r.1
  let flag : Int := r.2
  if flag = 0 then
    if aNegative ^^^ bNegative ≠ 0 then
      if tmp ≤ toUnsigned 64 INT64_MIN then
        (SignedNegation_int64_t tmp, 0)
      else
        (0, 1)
    else
      if tmp ≤ toUnsigned 64 INT64_MAX then
        (toSigned 64 (tmp : Int), 0)
      else
        (0, 1)
  else
    (0, 1)

/-! ## C integer types and mixed comparisons

The conversion routines compare a source value with `<stdint.h>` limits of
another type; C first brings both operands to a common type (integer promotion,
then the usual arithmetic conversions). `int` is 32 bits wide on every platform
the runtime targets; the pointer width `W` is a platform parameter. -/

/-- A C integer type: signedness and width in bits. -/
structure CType where
  isSigned : Bool
  width : Nat

def c_int : CType := ⟨true, 32⟩
def int8_t : CType := ⟨true, 8⟩
def int16_t : CType := ⟨true, 16⟩
def int32_t : CType := ⟨true, 32⟩
def int64_t : CType := ⟨true, 64⟩
def uint8_t : CType := ⟨false, 8⟩
def uint16_t : CType := ⟨false, 16⟩
def uint32_t : CType := ⟨false, 32⟩
def uint64_t : CType := ⟨false, 64⟩
/-- The type `intptr_t` on a platform with `W`-bit pointers. -/
def intptr_t (W : Nat) : CType := ⟨true, W⟩
/-- The type `uintptr_t` on a platform with `W`-bit pointers. -/
def uintptr_t (W : Nat) : CType := ⟨false, W⟩

/-- Integer promotion: a type narrower than `int` becomes `int`. -/
def promote (t : CType) : CType := if t.width < 32 then c_int else t

/-- The usual arithmetic conversions: the type in which a binary operator
evaluates operands of types `t1` and `t2`. With equal signedness it is the wider
promoted type; otherwise the unsigned type wins unless the signed type is
strictly wider (and so holds every value of the unsigned one). -/
def commonType (t1 t2 : CType) : CType :=
  let p1 := promote t1
  let p2 := promote t2
  if p1.isSigned = p2.isSigned then
    ⟨p1.isSigned, max p1.width p2.width⟩
  else
    let s := if p1.isSigned then p1 else p2
    let u := if p1.isSigned then p2 else p1
    if u.width ≥ s.width then ⟨false, u.width⟩ else ⟨true, s.width⟩

/-- Conversion of the value `x` to the type `t`. -/
def convertTo (t : CType) (x : Int) : Int :=
  if t.isSigned then toSigned t.width x else (toUnsigned t.width x : Int)

/-- The C expression `x < y` for `x` of type `t1` and `y` of type `t2`. -/
def c_lt (t1 : CType) (x : Int) (t2 : CType) (y : Int) : Bool :=
  decide (convertTo (commonType t1 t2) x < convertTo (commonType t1 t2) y)

/-- The C expression `x > y` for `x` of type `t1` and `y` of type `t2`. -/
def c_gt (t1 : CType) (x : Int) (t2 : CType) (y : Int) : Bool :=
  decide (convertTo (commonType t1 t2) x > convertTo (commonType t1 t2) y)

/-! ## Further `<stdint.h>` limits -/

def INT8_MAX : Int := 127
def INT8_MIN : Int := -128
def INT16_MAX : Int := 32767
def INT16_MIN : Int := -32768
def UINT8_MAX : Nat := 255
def UINT16_MAX : Nat := 65535
/-- The limit `INTPTR_MAX` for `W`-bit pointers. -/
def INTPTR_MAX (W : Nat) : Int := 2 ^ (W - 1) - 1
/-- The limit `INTPTR_MIN` for `W`-bit pointers. -/
def INTPTR_MIN (W : Nat) : Int := -(2 ^ (W - 1))
/-- The limit `UINTPTR_MAX` for `W`-bit pointers. -/
def UINTPTR_MAX (W : Nat) : Nat := 2 ^ W - 1

/-- Values of the C type `int8_t`. -/
abbrev InRange_int8_t (x : Int) : Prop := INT8_MIN ≤ x ∧ x ≤ INT8_MAX
/-- Values of the C type `int16_t`. -/
abbrev InRange_int16_t (x : Int) : Prop := INT16_MIN ≤ x ∧ x ≤ INT16_MAX
/-- Values of the C type `uint8_t`. -/
abbrev InRange_uint8_t (x : Nat) : Prop := x ≤ UINT8_MAX
/-- Values of the C type `uint16_t`. -/
abbrev InRange_uint16_t (x : Nat) : Prop := x ≤ UINT16_MAX
/-- Values of the C type `intptr_t` for `W`-bit pointers. -/
abbrev InRange_intptr_t (W : Nat) (x : Int) : Prop := INTPTR_MIN W ≤ x ∧ x ≤ INTPTR_MAX W
/-- Values of the C type `uintptr_t` for `W`-bit pointers. -/
abbrev InRange_uintptr_t (W : Nat) (x : Nat) : Prop := x ≤ UINTPTR_MAX W

/-! ## Pointer-width addition and subtraction -/

/-- Embedding of `intptr_t Add_int32_t_intptr_t(int32_t lhs, intptr_t rhs, int *flag)`:
the 64-bit routine, then the range check against `INTPTR_MAX` / `INTPTR_MIN`. -/
def Add_int32_t_intptr_t (W : Nat) (lhs rhs : Int) (flag : Int) : Int × Int :=
  let r : Int × Int := Add_int64_t_int64_t (toSigned 64 lhs) (toSigned 64 rhs) flag
  let tmp : Int := r.1
  let flag : Int := r.2
  if flag = 0 then
    if tmp ≤ INTPTR_MAX W ∧ tmp ≥ INTPTR_MIN W then
      (toSigned W tmp, 0)
    else
      (0, 1)
  else
    (0, 1)

/-- Embedding of `intptr_t Add_intptr_t_intptr_t(intptr_t lhs, intptr_t rhs, int *flag)`:
the 64-bit routine, then the range check against `INTPTR_MAX` / `INTPTR_MIN`. -/
def Add_intptr_t_intptr_t (W : Nat) (lhs rhs : Int) (flag : Int) : Int × Int :=
  let r : Int × Int := Add_int64_t_int64_t (toSigned 64 lhs) (toSigned 64 rhs) flag
  let tmp : Int := r.1
  let flag : Int := r.2
  if flag = 0 then
    if tmp ≤ INTPTR_MAX W ∧ tmp ≥ INTPTR_MIN W then
      (toSigned W tmp, 0)
    else
      (0, 1)
  else
    (0, 1)

/-- Embedding of `uintptr_t Add_uint32_t_uintptr_t(uint32_t lhs, uintptr_t rhs, int *flag)`:
the 64-bit routine, then the range check against `UINTPTR_MAX`. -/
def Add_uint32_t_uintptr_t (W : Nat) (lhs rhs : Nat) (flag : Int) : Nat × Int :=
  let r : Nat × Int := Add_uint64_t_uint64_t (toUnsigned 64 (lhs : Int)) (toUnsigned 64 (rhs : Int)) flag
  let tmp : Nat := r.1
  let flag : Int := r.2
  if flag = 0 then
    if tmp ≤ UINTPTR_MAX W then
      (toUnsigned W (tmp : Int), 0)
    else
      (0, 1)
  else
    (0, 1)

/-- Embedding of `uintptr_t Add_uintptr_t_uintptr_t(uintptr_t lhs, uintptr_t rhs, int *flag)`:
the 64-bit routine, then the range check against `UINTPTR_MAX`. -/
def Add_uintptr_t_uintptr_t (W : Nat) (lhs rhs : Nat) (flag : Int) : Nat × Int :=
  let r : Nat × Int := Add_uint64_t_uint64_t (toUnsigned 64 (lhs : Int)) (toUnsigned 64 (rhs : Int)) flag
  let tmp : Nat := r.1
  let flag : Int := r.2
  if flag = 0 then
    if tmp ≤ UINTPTR_MAX W then
      (toUnsigned W (tmp : Int), 0)
    else
      (0, 1)
  else
    (0, 1)

/-- Embedding of `intptr_t Subtract_int32_t_intptr_t(int32_t lhs, intptr_t rhs, int *flag)`:
the 64-bit routine, then the range check against `INTPTR_MAX` / `INTPTR_MIN`. -/
def Subtract_int32_t_intptr_t (W : Nat) (lhs rhs : Int) (flag : Int) : Int × Int :=
  let r : Int × Int := Subtract_int64_t_int64_t (toSigned 64 lhs) (toSigned 64 rhs) flag
  let tmp : Int := r.1
  let flag : Int := r.2
  if flag = 0 then
    if tmp ≤ INTPTR_MAX W ∧ tmp ≥ INTPTR_MIN W then
      (toSigned W tmp, 0)
    else
      (0, 1)
  else
    (0, 1)

/-- Embedding of `intptr_t Subtract_intptr_t_intptr_t(intptr_t lhs, intptr_t rhs, int *flag)`:
the 64-bit routine, then the range check against `INTPTR_MAX` / `INTPTR_MIN`. -/
def Subtract_intptr_t_intptr_t (W : Nat) (lhs rhs : Int) (flag : Int) : Int × Int :=
  let r : Int × Int := Subtract_int64_t_int64_t (toSigned 64 lhs) (toSigned 64 rhs) flag
  let tmp : Int := r.1
  let flag : Int := r.2
  if flag = 0 then
    if tmp ≤ INTPTR_MAX W ∧ tmp ≥ INTPTR_MIN W then
      (toSigned W tmp, 0)
    else
      (0, 1)
  else
    (0, 1)

/-- Embedding of `uintptr_t Subtract_uint32_t_uintptr_t(uint32_t lhs, uintptr_t rhs, int *flag)`:
the 64-bit routine, then the range check against `UINTPTR_MAX`. -/
def Subtract_uint32_t_uintptr_t (W : Nat) (lhs rhs : Nat) (flag : Int) : Nat × Int :=
  let r : Nat × Int := Subtract_uint64_t_uint64_t (toUnsigned 64 (lhs : Int)) (toUnsigned 64 (rhs : Int)) flag
  let tmp : Nat := r.1
  let flag : Int := r.2
  if flag = 0 then
    if tmp ≤ UINTPTR_MAX W then
      (toUnsigned W (tmp : Int), 0)
    else
      (0, 1)
  else
    (0, 1)

/-- Embedding of `uintptr_t Subtract_uintptr_t_uintptr_t(uintptr_t lhs, uintptr_t rhs, int *flag)`:
the 64-bit routine, then the range check against `UINTPTR_MAX`. -/
def Subtract_uintptr_t_uintptr_t (W : Nat) (lhs rhs : Nat) (flag : Int) : Nat × Int :=
  let r : Nat × Int := Subtract_uint64_t_uint64_t (toUnsigned 64 (lhs : Int)) (toUnsigned 64 (rhs : Int)) flag
  let tmp : Nat := r.1
  let flag : Int := r.2
  if flag = 0 then
    if tmp ≤ UINTPTR_MAX W then
      (toUnsigned W (tmp : Int), 0)
    else
      (0, 1)
  else
    (0, 1)

/-- The header's `#define Add_intptr_t_int32_t Add_int32_t_intptr_t`: a call
`Add_intptr_t_int32_t(lhs, rhs, flag)` with `lhs` of type `intptr_t` and `rhs` of
type `int32_t` is the call `Add_int32_t_intptr_t(lhs, rhs, flag)`, whose
prototype converts the first argument to `int32_t` and the second to
`intptr_t`. -/
def Add_intptr_t_int32_t (W : Nat) (lhs rhs : Int) (flag : Int) : Int × Int :=
  Add_int32_t_intptr_t W (toSigned 32 lhs) (toSigned W rhs) flag

/-! ## Narrower and pointer-width multiplication -/

/-- Embedding of `int32_t Multiply_int32_t_int32_t(int32_t a, int32_t b, int *flag)`. -/
def Multiply_int32_t_int32_t (a b : Int) (flag : Int) : Int × Int :=
  let r : Int × Int := Multiply_int64_t_int64_t (toSigned 64 a) (toSigned 64 b) flag
  let tmp : Int := r.1
  let flag : Int := r.2
  if flag = 0 ∧ tmp ≥ INT32_MIN ∧ tmp ≤ INT32_MAX then
    (toSigned 32 tmp, 0)
  else
    (0, 1)

/-- Embedding of `intptr_t Multiply_int32_t_intptr_t(int32_t a, intptr_t b, int *flag)`. -/
def Multiply_int32_t_intptr_t (W : Nat) (a b : Int) (flag : Int) : Int × Int :=
  let r : Int × Int := Multiply_int64_t_int64_t (toSigned 64 a) (toSigned 64 b) flag
  let tmp : Int := r.1
  let flag : Int := r.2
  if flag = 0 ∧ tmp ≥ INTPTR_MIN W ∧ tmp ≤ INTPTR_MAX W then
    (toSigned W tmp, 0)
  else
    (0, 1)

/-- Embedding of `intptr_t Multiply_intptr_t_intptr_t(intptr_t a, intptr_t b, int *flag)`. -/
def Multiply_intptr_t_intptr_t (W : Nat) (a b : Int) (flag : Int) : Int × Int :=
  let r : Int × Int := Multiply_int64_t_int64_t (toSigned 64 a) (toSigned 64 b) flag
  let tmp : Int := r.1
  let flag : Int := r.2
  if flag = 0 ∧ tmp ≥ INTPTR_MIN W ∧ tmp ≤ INTPTR_MAX W then
    (toSigned W tmp, 0)
  else
    (0, 1)

/-- Embedding of `uint32_t Multiply_uint32_t_uint32_t(uint32_t a, uint32_t b, int *flag)`. -/
def Multiply_uint32_t_uint32_t (a b : Nat) (flag : Int) : Nat × Int :=
  let r : Nat × Int :=
    Multiply_uint64_t_uint64_t (toUnsigned 64 (a : Int)) (toUnsigned 64 (b : Int)) flag
  let tmp : Nat := r.1
  let flag : Int := r.2
  if flag = 0 ∧ tmp ≤ UINT32_MAX then
    (toUnsigned 32 (tmp : Int), 0)
  else
    (0, 1)

/-- Embedding of `uintptr_t Multiply_uint32_t_uintptr_t(uint32_t a, uintptr_t b, int *flag)`. -/
def Multiply_uint32_t_uintptr_t (W : Nat) (a b : Nat) (flag : Int) : Nat × Int :=
  let r : Nat × Int :=
    Multiply_uint64_t_uint64_t (toUnsigned 64 (a : Int)) (toUnsigned 64 (b : Int)) flag
  let tmp : Nat := r.1
  let flag : Int := r.2
  if flag = 0 ∧ tmp ≤ UINTPTR_MAX W then
    (toUnsigned W (tmp : Int), 0)
  else
    (0, 1)

/-- Embedding of
`uintptr_t Multiply_uintptr_t_uintptr_t(uintptr_t a, uintptr_t b, uintptr_t *pRet, int *flag)`.
The definition in the `.c` file has the extra parameter `pRet`, which it neither
reads nor writes (the header declares the routine without it). -/
def Multiply_uintptr_t_uintptr_t (W : Nat) (a b : Nat) (pRet : Nat) (flag : Int) : Nat × Int :=
  let r : Nat × Int :=
    Multiply_uint64_t_uint64_t (toUnsigned 64 (a : Int)) (toUnsigned 64 (b : Int)) flag
  let tmp : Nat := r.1
  let flag : Int := r.2
  if flag = 0 ∧ tmp ≤ UINTPTR_MAX W then
    (toUnsigned W (tmp : Int), 0)
  else
    (0, 1)

/-! ## Conversions -/

/-- Embedding of `int8_t Convert_int16_t_to_int8_t(int16_t a, int *flag)`. -/
def Convert_int16_t_to_int8_t (a : Int) (flag : Int) : Int × Int :=
  if c_gt int16_t a c_int INT8_MAX || c_lt int16_t a c_int INT8_MIN then
    (0, 1)
  else
    (toSigned 8 a, 0)

/-- Embedding of `int8_t Convert_int32_t_to_int8_t(int32_t a, int *flag)`. -/
def Convert_int32_t_to_int8_t (a : Int) (flag : Int) : Int × Int :=
  if c_gt int32_t a c_int INT8_MAX || c_lt int32_t a c_int INT8_MIN then
    (0, 1)
  else
    (toSigned 8 a, 0)

/-- Embedding of `int8_t Convert_int64_t_to_int8_t(int64_t a, int *flag)`. -/
def Convert_int64_t_to_int8_t (a : Int) (flag : Int) : Int × Int :=
  if c_gt int64_t a c_int INT8_MAX || c_lt int64_t a c_int INT8_MIN then
    (0, 1)
  else
    (toSigned 8 a, 0)

/-- Embedding of `int8_t Convert_intptr_t_to_int8_t(intptr_t a, int *flag)`. -/
def Convert_intptr_t_to_int8_t (W : Nat) (a : Int) (flag : Int) : Int × Int :=
  if c_gt (intptr_t W) a c_int INT8_MAX || c_lt (intptr_t W) a c_int INT8_MIN then
    (0, 1)
  else
    (toSigned 8 a, 0)

/-- Embedding of `int16_t Convert_int32_t_to_int16_t(int32_t a, int *flag)`. -/
def Convert_int32_t_to_int16_t (a : Int) (flag : Int) : Int × Int :=
  if c_gt int32_t a c_int INT16_MAX || c_lt int32_t a c_int INT16_MIN then
    (0, 1)
  else
    (toSigned 16 a, 0)

/-- Embedding of `int16_t Convert_int64_t_to_int16_t(int64_t a, int *flag)`. -/
def Convert_int64_t_to_int16_t (a : Int) (flag : Int) : Int × Int :=
  if c_gt int64_t a c_int INT16_MAX || c_lt int64_t a c_int INT16_MIN then
    (0, 1)
  else
    (toSigned 16 a, 0)

/-- Embedding of `int16_t Convert_intptr_t_to_int16_t(intptr_t a, int *flag)`. -/
def Convert_intptr_t_to_int16_t (W : Nat) (a : Int) (flag : Int) : Int × Int :=
  if c_gt (intptr_t W) a c_int INT16_MAX || c_lt (intptr_t W) a c_int INT16_MIN then
    (0, 1)
  else
    (toSigned 16 a, 0)

/-- Embedding of `int32_t Convert_int64_t_to_int32_t(int64_t a, int *flag)`. -/
def Convert_int64_t_to_int32_t (a : Int) (flag : Int) : Int × Int :=
  if c_gt int64_t a c_int INT32_MAX || c_lt int64_t a c_int INT32_MIN then
    (0, 1)
  else
    (toSigned 32 a, 0)

/-- Embedding of `int32_t Convert_intptr_t_to_int32_t(intptr_t a, int *flag)`. -/
def Convert_intptr_t_to_int32_t (W : Nat) (a : Int) (flag : Int) : Int × Int :=
  if c_gt (intptr_t W) a c_int INT32_MAX || c_lt (intptr_t W) a c_int INT32_MIN then
    (0, 1)
  else
    (toSigned 32 a, 0)

/-- Embedding of `int64_t Convert_intptr_t_to_int64_t(intptr_t a, int *flag)`. -/
def Convert_intptr_t_to_int64_t (W : Nat) (a : Int) (flag : Int) : Int × Int :=
  if c_gt (intptr_t W) a int64_t INT64_MAX || c_lt (intptr_t W) a int64_t INT64_MIN then
    (0, 1)
  else
    (toSigned 64 a, 0)

/-- Embedding of `uint8_t Convert_int16_t_to_uint8_t(int16_t a, int *flag)`. -/
def Convert_int16_t_to_uint8_t (a : Int) (flag : Int) : Nat × Int :=
  if c_gt int16_t a c_int (UINT8_MAX : Int) || c_lt int16_t a c_int 0 then
    (0, 1)
  else
    (toUnsigned 8 a, 0)

/-- Embedding of `uint8_t Convert_int32_t_to_uint8_t(int32_t a, int *flag)`. -/
def Convert_int32_t_to_uint8_t (a : Int) (flag : Int) : Nat × Int :=
  if c_gt int32_t a c_int (UINT8_MAX : Int) || c_lt int32_t a c_int 0 then
    (0, 1)
  else
    (toUnsigned 8 a, 0)

/-- Embedding of `uint8_t Convert_int64_t_to_uint8_t(int64_t a, int *flag)`. -/
def Convert_int64_t_to_uint8_t (a : Int) (flag : Int) : Nat × Int :=
  if c_gt int64_t a c_int (UINT8_MAX : Int) || c_lt int64_t a c_int 0 then
    (0, 1)
  else
    (toUnsigned 8 a, 0)

/-- Embedding of `uint8_t Convert_intptr_t_to_uint8_t(intptr_t a, int *flag)`. -/
def Convert_intptr_t_to_uint8_t (W : Nat) (a : Int) (flag : Int) : Nat × Int :=
  if c_gt (intptr_t W) a c_int (UINT8_MAX : Int) || c_lt (intptr_t W) a c_int 0 then
    (0, 1)
  else
    (toUnsigned 8 a, 0)

/-- Embedding of `uint16_t Convert_int32_t_to_uint16_t(int32_t a, int *flag)`. -/
def Convert_int32_t_to_uint16_t (a : Int) (flag : Int) : Nat × Int :=
  if c_gt int32_t a c_int (UINT16_MAX : Int) || c_lt int32_t a c_int 0 then
    (0, 1)
  else
    (toUnsigned 16 a, 0)

/-- Embedding of `uint16_t Convert_int64_t_to_uint16_t(int64_t a, int *flag)`. -/
def Convert_int64_t_to_uint16_t (a : Int) (flag : Int) : Nat × Int :=
  if c_gt int64_t a c_int (UINT16_MAX : Int) || c_lt int64_t a c_int 0 then
    (0, 1)
  else
    (toUnsigned 16 a, 0)

/-- Embedding of `uint16_t Convert_intptr_t_to_uint16_t(intptr_t a, int *flag)`. -/
def Convert_intptr_t_to_uint16_t (W : Nat) (a : Int) (flag : Int) : Nat × Int :=
  if c_gt (intptr_t W) a c_int (UINT16_MAX : Int) || c_lt (intptr_t W) a c_int 0 then
    (0, 1)
  else
    (toUnsigned 16 a, 0)

/-- Embedding of `uint32_t Convert_int64_t_to_uint32_t(int64_t a, int *flag)`. -/
def Convert_int64_t_to_uint32_t (a : Int) (flag : Int) : Nat × Int :=
  if c_gt int64_t a uint32_t (UINT32_MAX : Int) || c_lt int64_t a c_int 0 then
    (0, 1)
  else
    (toUnsigned 32 a, 0)

/-- Embedding of `uint32_t Convert_intptr_t_to_uint32_t(intptr_t a, int *flag)`. -/
def Convert_intptr_t_to_uint32_t (W : Nat) (a : Int) (flag : Int) : Nat × Int :=
  if c_gt (intptr_t W) a uint32_t (UINT32_MAX : Int) || c_lt (intptr_t W) a c_int 0 then
    (0, 1)
  else
    (toUnsigned 32 a, 0)

/-- Embedding of `uint64_t Convert_intptr_t_to_uint64_t(intptr_t a, int *flag)`. -/
def Convert_intptr_t_to_uint64_t (W : Nat) (a : Int) (flag : Int) : Nat × Int :=
  if c_gt (intptr_t W) a uint64_t (UINT64_MAX : Int) || c_lt (intptr_t W) a c_int 0 then
    (0, 1)
  else
    (toUnsigned 64 a, 0)

/-- Embedding of `intptr_t Convert_int64_t_to_intptr_t(int64_t a, int *flag)`. -/
def Convert_int64_t_to_intptr_t (W : Nat) (a : Int) (flag : Int) : Int × Int :=
  if c_gt int64_t a (intptr_t W) (INTPTR_MAX W) || c_lt int64_t a (intptr_t W) (INTPTR_MIN W) then
    (0, 1)
  else
    (toSigned W a, 0)

/-- Embedding of `uintptr_t Convert_int64_t_to_uintptr_t(int64_t a, int *flag)`. -/
def Convert_int64_t_to_uintptr_t (W : Nat) (a : Int) (flag : Int) : Nat × Int :=
  if c_gt int64_t a (uintptr_t W) (UINTPTR_MAX W : Int) || c_lt int64_t a c_int 0 then
    (0, 1)
  else
    (toUnsigned W a, 0)

/-- Embedding of `int8_t Convert_uint16_t_to_int8_t(uint16_t a, int *flag)`. -/
def Convert_uint16_t_to_int8_t (a : Nat) (flag : Int) : Int × Int :=
  if c_gt uint16_t (a : Int) c_int INT8_MAX || c_lt uint16_t (a : Int) c_int INT8_MIN then
    (0, 1)
  else
    (toSigned 8 (a : Int), 0)

/-- Embedding of `int8_t Convert_uint32_t_to_int8_t(uint32_t a, int *flag)`. -/
def Convert_uint32_t_to_int8_t (a : Nat) (flag : Int) : Int × Int :=
  if c_gt uint32_t (a : Int) c_int INT8_MAX || c_lt uint32_t (a : Int) c_int INT8_MIN then
    (0, 1)
  else
    (toSigned 8 (a : Int), 0)

/-- Embedding of `int8_t Convert_uint64_t_to_int8_t(uint64_t a, int *flag)`. -/
def Convert_uint64_t_to_int8_t (a : Nat) (flag : Int) : Int × Int :=
  if c_gt uint64_t (a : Int) c_int INT8_MAX || c_lt uint64_t (a : Int) c_int INT8_MIN then
    (0, 1)
  else
    (toSigned 8 (a : Int), 0)

/-- Embedding of `int8_t Convert_uintptr_t_to_int8_t(uintptr_t a, int *flag)`. -/
def Convert_uintptr_t_to_int8_t (W : Nat) (a : Nat) (flag : Int) : Int × Int :=
  if c_gt (uintptr_t W) (a : Int) c_int INT8_MAX || c_lt (uintptr_t W) (a : Int) c_int INT8_MIN then
    (0, 1)
  else
    (toSigned 8 (a : Int), 0)

/-- Embedding of `int16_t Convert_uint32_t_to_int16_t(uint32_t a, int *flag)`. -/
def Convert_uint32_t_to_int16_t (a : Nat) (flag : Int) : Int × Int :=
  if c_gt uint32_t (a : Int) c_int INT16_MAX || c_lt uint32_t (a : Int) c_int INT16_MIN then
    (0, 1)
  else
    (toSigned 16 (a : Int), 0)

/-- Embedding of `int16_t Convert_uint64_t_to_int16_t(uint64_t a, int *flag)`. -/
def Convert_uint64_t_to_int16_t (a : Nat) (flag : Int) : Int × Int :=
  if c_gt uint64_t (a : Int) c_int INT16_MAX || c_lt uint64_t (a : Int) c_int INT16_MIN then
    (0, 1)
  else
    (toSigned 16 (a : Int), 0)

/-- Embedding of `int16_t Convert_uintptr_t_to_int16_t(uintptr_t a, int *flag)`. -/
def Convert_uintptr_t_to_int16_t (W : Nat) (a : Nat) (flag : Int) : Int × Int :=
  if c_gt (uintptr_t W) (a : Int) c_int INT16_MAX || c_lt (uintptr_t W) (a : Int) c_int INT16_MIN then
    (0, 1)
  else
    (toSigned 16 (a : Int), 0)

/-- Embedding of `int32_t Convert_uint64_t_to_int32_t(uint64_t a, int *flag)`. -/
def Convert_uint64_t_to_int32_t (a : Nat) (flag : Int) : Int × Int :=
  if c_gt uint64_t (a : Int) c_int INT32_MAX || c_lt uint64_t (a : Int) c_int INT32_MIN then
    (0, 1)
  else
    (toSigned 32 (a : Int), 0)

/-- Embedding of `int32_t Convert_uintptr_t_to_int32_t(uintptr_t a, int *flag)`. -/
def Convert_uintptr_t_to_int32_t (W : Nat) (a : Nat) (flag : Int) : Int × Int :=
  if c_gt (uintptr_t W) (a : Int) c_int INT32_MAX || c_lt (uintptr_t W) (a : Int) c_int INT32_MIN then
    (0, 1)
  else
    (toSigned 32 (a : Int), 0)

/-- Embedding of `int64_t Convert_uintptr_t_to_int64_t(uintptr_t a, int *flag)`. -/
def Convert_uintptr_t_to_int64_t (W : Nat) (a : Nat) (flag : Int) : Int × Int :=
  if c_gt (uintptr_t W) (a : Int) int64_t INT64_MAX || c_lt (uintptr_t W) (a : Int) int64_t INT64_MIN then
    (0, 1)
  else
    (toSigned 64 (a : Int), 0)

/-- Embedding of `uint8_t Convert_uint16_t_to_uint8_t(uint16_t a, int *flag)`. -/
def Convert_uint16_t_to_uint8_t (a : Nat) (flag : Int) : Nat × Int :=
  if c_gt uint16_t (a : Int) c_int (UINT8_MAX : Int) || c_lt uint16_t (a : Int) c_int 0 then
    (0, 1)
  else
    (toUnsigned 8 (a : Int), 0)

/-- Embedding of `uint8_t Convert_uint32_t_to_uint8_t(uint32_t a, int *flag)`. -/
def Convert_uint32_t_to_uint8_t (a : Nat) (flag : Int) : Nat × Int :=
  if c_gt uint32_t (a : Int) c_int (UINT8_MAX : Int) || c_lt uint32_t (a : Int) c_int 0 then
    (0, 1)
  else
    (toUnsigned 8 (a : Int), 0)

/-- Embedding of `uint8_t Convert_uint64_t_to_uint8_t(uint64_t a, int *flag)`. -/
def Convert_uint64_t_to_uint8_t (a : Nat) (flag : Int) : Nat × Int :=
  if c_gt uint64_t (a : Int) c_int (UINT8_MAX : Int) || c_lt uint64_t (a : Int) c_int 0 then
    (0, 1)
  else
    (toUnsigned 8 (a : Int), 0)

/-- Embedding of `uint8_t Convert_uintptr_t_to_uint8_t(uintptr_t a, int *flag)`. -/
def Convert_uintptr_t_to_uint8_t (W : Nat) (a : Nat) (flag : Int) : Nat × Int :=
  if c_gt (uintptr_t W) (a : Int) c_int (UINT8_MAX : Int) || c_lt (uintptr_t W) (a : Int) c_int 0 then
    (0, 1)
  else
    (toUnsigned 8 (a : Int), 0)

/-- Embedding of `uint16_t Convert_uint32_t_to_uint16_t(uint32_t a, int *flag)`. -/
def Convert_uint32_t_to_uint16_t (a : Nat) (flag : Int) : Nat × Int :=
  if c_gt uint32_t (a : Int) c_int (UINT16_MAX : Int) || c_lt uint32_t (a : Int) c_int 0 then
    (0, 1)
  else
    (toUnsigned 16 (a : Int), 0)

/-- Embedding of `uint16_t Convert_uint64_t_to_uint16_t(uint64_t a, int *flag)`. -/
def Convert_uint64_t_to_uint16_t (a : Nat) (flag : Int) : Nat × Int :=
  if c_gt uint64_t (a : Int) c_int (UINT16_MAX : Int) || c_lt uint64_t (a : Int) c_int 0 then
    (0, 1)
  else
    (toUnsigned 16 (a : Int), 0)

/-- Embedding of `uint16_t Convert_uintptr_t_to_uint16_t(uintptr_t a, int *flag)`. -/
def Convert_uintptr_t_to_uint16_t (W : Nat) (a : Nat) (flag : Int) : Nat × Int :=
  if c_gt (uintptr_t W) (a : Int) c_int (UINT16_MAX : Int) || c_lt (uintptr_t W) (a : Int) c_int 0 then
    (0, 1)
  else
    (toUnsigned 16 (a : Int), 0)

/-- Embedding of `uint32_t Convert_uint64_t_to_uint32_t(uint64_t a, int *flag)`. -/
def Convert_uint64_t_to_uint32_t (a : Nat) (flag : Int) : Nat × Int :=
  if c_gt uint64_t (a : Int) uint32_t (UINT32_MAX : Int) || c_lt uint64_t (a : Int) c_int 0 then
    (0, 1)
  else
    (toUnsigned 32 (a : Int), 0)

/-- Embedding of `uint32_t Convert_uintptr_t_to_uint32_t(uintptr_t a, int *flag)`. -/
def Convert_uintptr_t_to_uint32_t (W : Nat) (a : Nat) (flag : Int) : Nat × Int :=
  if c_gt (uintptr_t W) (a : Int) uint32_t (UINT32_MAX : Int) || c_lt (uintptr_t W) (a : Int) c_int 0 then
    (0, 1)
  else
    (toUnsigned 32 (a : Int), 0)

/-- Embedding of `uint64_t Convert_uintptr_t_to_uint64_t(uintptr_t a, int *flag)`. -/
def Convert_uintptr_t_to_uint64_t (W : Nat) (a : Nat) (flag : Int) : Nat × Int :=
  if c_gt (uintptr_t W) (a : Int) uint64_t (UINT64_MAX : Int) || c_lt (uintptr_t W) (a : Int) c_int 0 then
    (0, 1)
  else
    (toUnsigned 64 (a : Int), 0)

/-- Embedding of `intptr_t Convert_uint64_t_to_intptr_t(uint64_t a, int *flag)`. -/
def Convert_uint64_t_to_intptr_t (W : Nat) (a : Nat) (flag : Int) : Int × Int :=
  if c_gt uint64_t (a : Int) (intptr_t W) (INTPTR_MAX W) || c_lt uint64_t (a : Int) (intptr_t W) (INTPTR_MIN W) then
    (0, 1)
  else
    (toSigned W (a : Int), 0)

/-- Embedding of `uintptr_t Convert_uint64_t_to_uintptr_t(uint64_t a, int *flag)`. -/
def Convert_uint64_t_to_uintptr_t (W : Nat) (a : Nat) (flag : Int) : Nat × Int :=
  if c_gt uint64_t (a : Int) (uintptr_t W) (UINTPTR_MAX W : Int) || c_lt uint64_t (a : Int) c_int 0 then
    (0, 1)
  else
    (toUnsigned W (a : Int), 0)

/-! ## The overflow convention -/

/-- The overflow convention on a result `(value, flag)`: the flag is 0 or 1,
and the value is 0 whenever the flag is 1. -/
def ObeysOverflowConvention {α : Type} [Zero α] (r : α × Int) : Prop :=
  (r.2 = 0 ∨ r.2 = 1) ∧ (r.2 = 1 → r.1 = 0)

/-- The local `tmp` of `Add_int64_t_int64_t`,
`(int64_t)((uint64_t)lhs + (uint64_t)rhs)`: the 64-bit wraparound sum of the
operands read as signed. -/
def Add_int64_t_int64_t_tmp (lhs rhs : Int) : Int :=
  toSigned 64 (((toUnsigned 64 lhs + toUnsigned 64 rhs) % 2 ^ 64 : Nat) : Int)

end OverflowChecker

/-! # `Platform.c` -/

namespace Platform

/-- The loop `while (offset % sizeof(void*) != 0) offset++;` of
`Increment_and_align`, with `P = sizeof(void*)`: `fuel` bounds the number of
evaluations of the loop condition, `none` means the bound was reached.
`offset++` wraps modulo `2 ^ 32`. -/
def Increment_and_align_loop (P : Nat) : Nat → Nat → Option Nat
  | 0, _ => none
  | fuel + 1, offset =>
    if offset % P ≠ 0 then
      Increment_and_align_loop P fuel ((offset + 1) % 2 ^ 32)
    else
      some offset

/-- Embedding of `uint32_t Increment_and_align(uint32_t offset, uint32_t increment)`
for the pointer size `P = sizeof(void*)`; `offset += increment` wraps modulo
`2 ^ 32`. -/
def Increment_and_align (P : Nat) (offset increment : Nat) (fuel : Nat) : Option Nat :=
  let offset : Nat := (offset + increment) % 2 ^ 32
  Increment_and_align_loop P fuel offset

end Platform

namespace OverflowChecker

/-! ## Arithmetic helper lemmas -/

theorem mul_lt_of_halves (x y : Nat) (hx : x < 2 ^ 32) (hy : y < 2 ^ 32) :
    x * y < 2 ^ 64 := by
  have h1 : x ≤ 4294967295 := by omega
  have h2 : y ≤ 4294967295 := by omega
  have h3 : x * y ≤ 4294967295 * 4294967295 := Nat.mul_le_mul h1 h2
  omega

/-- The second half of the unsigned multiply, for a cross term `pRet` and a low
product that both fit 64 bits: it flags exactly when `pRet * 2 ^ 32 + aLow * bLow`
does not fit 64 bits, its flag is 0 or 1, and on success it returns the low
product. -/
theorem Multiply_uint64_t_uint64_t_accumulate_spec (aLow bLow pRet : Nat) (flag : Int)
    (hT : aLow * bLow < 2 ^ 64) (hP : pRet < 2 ^ 64) :
    ((Multiply_uint64_t_uint64_t_accumulate aLow bLow pRet flag).2 = 1 ↔
      2 ^ 64 ≤ pRet * 2 ^ 32 + aLow * bLow) ∧
    ((Multiply_uint64_t_uint64_t_accumulate aLow bLow pRet flag).2 = 0 ∨
      (Multiply_uint64_t_uint64_t_accumulate aLow bLow pRet flag).2 = 1) ∧
    ((Multiply_uint64_t_uint64_t_accumulate aLow bLow pRet flag).2 = 0 →
      (Multiply_uint64_t_uint64_t_accumulate aLow bLow pRet flag).1 = aLow * bLow) := by
  simp only [Multiply_uint64_t_uint64_t_accumulate, Nat.shiftRight_eq_div_pow, Nat.shiftLeft_eq]
  generalize aLow * bLow = T at *
  split_ifs <;> simp <;> omega

/-- Operands below `2 ^ 32`: both high halves are zero and the low product is
the whole product. -/
theorem Multiply_uint64_t_uint64_t_of_lt (a b : Nat) (flag : Int)
    (ha : a < 2 ^ 32) (hb : b < 2 ^ 32) :
    Multiply_uint64_t_uint64_t a b flag = (a * b, 0) := by
  have e1 : (a >>> 32) % 2 ^ 32 = 0 := by
    rw [Nat.shiftRight_eq_div_pow]; omega
  have e3 : (b >>> 32) % 2 ^ 32 = 0 := by
    rw [Nat.shiftRight_eq_div_pow]; omega
  have hLL := mul_lt_of_halves a b ha hb
  simp only [Multiply_uint64_t_uint64_t, Multiply_uint64_t_uint64_t_accumulate, e1, e3,
    Nat.mod_eq_of_lt ha, Nat.mod_eq_of_lt hb, Nat.mod_eq_of_lt hLL, if_true, ne_eq,
    not_true_eq_false, if_false]

/-- The overflow verdict of the unsigned 64-bit multiply is that of the exact
product. -/
theorem Multiply_uint64_t_uint64_t_flag_iff (a b : Nat) (flag : Int)
    (ha : InRange_uint64_t a) (hb : InRange_uint64_t b) :
    (Multiply_uint64_t_uint64_t a b flag).2 = 1 ↔ 2 ^ 64 ≤ a * b := by
  simp only [InRange_uint64_t, UINT64_MAX] at ha hb
  obtain ⟨aH, aL, rfl, haH, haL⟩ : ∃ aH aL, a = aH * 2 ^ 32 + aL ∧ aH < 2 ^ 32 ∧ aL < 2 ^ 32 :=
    ⟨a / 2 ^ 32, a % 2 ^ 32, by omega, by omega, by omega⟩
  obtain ⟨bH, bL, rfl, hbH, hbL⟩ : ∃ bH bL, b = bH * 2 ^ 32 + bL ∧ bH < 2 ^ 32 ∧ bL < 2 ^ 32 :=
    ⟨b / 2 ^ 32, b % 2 ^ 32, by omega, by omega, by omega⟩
  have e1 : ((aH * 2 ^ 32 + aL) >>> 32) % 2 ^ 32 = aH := by
    rw [Nat.shiftRight_eq_div_pow]; omega
  have e2 : (aH * 2 ^ 32 + aL) % 2 ^ 32 = aL := by omega
  have e3 : ((bH * 2 ^ 32 + bL) >>> 32) % 2 ^ 32 = bH := by
    rw [Nat.shiftRight_eq_div_pow]; omega
  have e4 : (bH * 2 ^ 32 + bL) % 2 ^ 32 = bL := by omega
  have hLL := mul_lt_of_halves aL bL haL hbL
  simp only [Multiply_uint64_t_uint64_t, e1, e2, e3, e4]
  by_cases hA : aH = 0
  · subst hA
    by_cases hB : bH = 0
    · subst hB
      have key := (Multiply_uint64_t_uint64_t_accumulate_spec aL bL 0 flag hLL (by norm_num)).1
      simp only [if_true, ne_eq, not_true_eq_false, if_false, key]
      simp only [Nat.zero_mul, Nat.zero_add]
    · have hLH := mul_lt_of_halves aL bH haL hbH
      have key := (Multiply_uint64_t_uint64_t_accumulate_spec aL bL (aL * bH) flag hLL hLH).1
      simp only [if_true, ne_eq, hB, not_false_eq_true, Nat.mod_eq_of_lt hLH, key]
      have expand : (0 * 2 ^ 32 + aL) * (bH * 2 ^ 32 + bL) = aL * bH * 2 ^ 32 + aL * bL := by
        ring
      rw [expand]
  · by_cases hB : bH = 0
    · subst hB
      have hHL := mul_lt_of_halves aH bL haH hbL
      have key := (Multiply_uint64_t_uint64_t_accumulate_spec aL bL (aH * bL) flag hLL hHL).1
      simp only [hA, if_false, if_true, ne_eq, not_false_eq_true, Nat.mod_eq_of_lt hHL, key]
      have expand : (aH * 2 ^ 32 + aL) * (0 * 2 ^ 32 + bL) = aH * bL * 2 ^ 32 + aL * bL := by
        ring
      rw [expand]
    · simp only [hA, hB, if_false, true_iff]
      have h1 : 1 ≤ aH := Nat.one_le_iff_ne_zero.mpr hA
      have h2 : 1 ≤ bH := Nat.one_le_iff_ne_zero.mpr hB
      calc 2 ^ 64 = (1 * 2 ^ 32) * (1 * 2 ^ 32) := by norm_num
        _ ≤ (aH * 2 ^ 32 + aL) * (bH * 2 ^ 32 + bL) :=
          Nat.mul_le_mul
            (le_trans (Nat.mul_le_mul_right _ h1) (Nat.le_add_right _ _))
            (le_trans (Nat.mul_le_mul_right _ h2) (Nat.le_add_right _ _))

/-! ## Checked addition -/

/-- C1: for `int64_t` operands, `Add_int64_t_int64_t` leaves 1 in the flag exactly
when the exact integer sum `lhs + rhs` lies outside `[-2^63, 2^63 - 1]`, and when
it leaves 0 the returned value is the exact sum. -/
theorem Add_int64_t_int64_t_exact (lhs rhs flag : Int)
    (hl : InRange_int64_t lhs) (hr : InRange_int64_t rhs) :
    ((Add_int64_t_int64_t lhs rhs flag).2 = 1 ↔
        (lhs + rhs < INT64_MIN ∨ INT64_MAX < lhs + rhs)) ∧
    ((Add_int64_t_int64_t lhs rhs flag).2 = 0 →
        (Add_int64_t_int64_t lhs rhs flag).1 = lhs + rhs) := by
  simp only [InRange_int64_t, INT64_MIN, INT64_MAX] at *
  simp only [Add_int64_t_int64_t, toSigned, toUnsigned]
  split_ifs <;> simp <;> omega

theorem Add_int64_t_int64_t_exact_witness :
    InRange_int64_t 9223372036854775807 ∧ InRange_int64_t 1 ∧
    ((Add_int64_t_int64_t 9223372036854775807 1 5).2 = 1 ↔
        (9223372036854775807 + 1 < INT64_MIN ∨ INT64_MAX < 9223372036854775807 + 1)) ∧
    ((Add_int64_t_int64_t 9223372036854775807 1 5).2 = 0 →
        (Add_int64_t_int64_t 9223372036854775807 1 5).1 = 9223372036854775807 + 1) :=
  ⟨by decide, by decide,
    Add_int64_t_int64_t_exact 9223372036854775807 1 5 (by decide) (by decide)⟩

/-- C2: for `int32_t` operands, `Add_int32_t_int32_t` leaves 1 in the flag exactly
when `lhs + rhs` lies outside `[-2^31, 2^31 - 1]`, and when it leaves 0 the
returned value is `lhs + rhs`; `Add_int32_t_int32_t(2147483647, 1)` reports
overflow. -/
theorem Add_int32_t_int32_t_exact (lhs rhs flag : Int)
    (hl : InRange_int32_t lhs) (hr : InRange_int32_t rhs) :
    ((Add_int32_t_int32_t lhs rhs flag).2 = 1 ↔
        (lhs + rhs < INT32_MIN ∨ INT32_MAX < lhs + rhs)) ∧
    ((Add_int32_t_int32_t lhs rhs flag).2 = 0 →
        (Add_int32_t_int32_t lhs rhs flag).1 = lhs + rhs) ∧
    (Add_int32_t_int32_t 2147483647 1 flag).2 = 1 := by
  simp only [InRange_int32_t, INT32_MIN, INT32_MAX] at *
  simp only [Add_int32_t_int32_t, toSigned, INT32_MIN, INT32_MAX]
  refine ⟨?_, ?_, by decide⟩
  · split_ifs <;> simp <;> omega
  · split_ifs <;> simp <;> omega

theorem Add_int32_t_int32_t_exact_witness :
    InRange_int32_t (-2147483648) ∧ InRange_int32_t (-1) ∧
    ((Add_int32_t_int32_t (-2147483648) (-1) 5).2 = 1 ↔
        ((-2147483648) + (-1) < INT32_MIN ∨ INT32_MAX < (-2147483648) + (-1))) ∧
    ((Add_int32_t_int32_t (-2147483648) (-1) 5).2 = 0 →
        (Add_int32_t_int32_t (-2147483648) (-1) 5).1 = (-2147483648) + (-1)) ∧
    (Add_int32_t_int32_t 2147483647 1 5).2 = 1 :=
  ⟨by decide, by decide,
    Add_int32_t_int32_t_exact (-2147483648) (-1) 5 (by decide) (by decide)⟩

/-- C3: for `uint32_t` operands `l32`, `r32` and `uint64_t` operands `l64`, `r64`,
the unsigned additions leave 1 in the flag exactly when the true sum is at least
`2 ^ 32` (respectively `2 ^ 64`), and when they leave 0 the returned value is the
true sum; `Add_uint32_t_uint32_t(4294967295, 1)` reports overflow. -/
theorem Add_unsigned_exact (l32 r32 l64 r64 : Nat) (flag : Int)
    (hl32 : InRange_uint32_t l32) (hr32 : InRange_uint32_t r32)
    (hl64 : InRange_uint64_t l64) (hr64 : InRange_uint64_t r64) :
    (((Add_uint32_t_uint32_t l32 r32 flag).2 = 1 ↔ 2 ^ 32 ≤ l32 + r32) ∧
      ((Add_uint32_t_uint32_t l32 r32 flag).2 = 0 →
        (Add_uint32_t_uint32_t l32 r32 flag).1 = l32 + r32)) ∧
    (((Add_uint64_t_uint64_t l64 r64 flag).2 = 1 ↔ 2 ^ 64 ≤ l64 + r64) ∧
      ((Add_uint64_t_uint64_t l64 r64 flag).2 = 0 →
        (Add_uint64_t_uint64_t l64 r64 flag).1 = l64 + r64)) ∧
    (Add_uint32_t_uint32_t 4294967295 1 flag).2 = 1 := by
  simp only [InRange_uint32_t, InRange_uint64_t, UINT32_MAX, UINT64_MAX] at *
  simp only [Add_uint32_t_uint32_t, Add_uint64_t_uint64_t, UINT32_MAX, UINT64_MAX]
  refine ⟨⟨?_, ?_⟩, ⟨?_, ?_⟩, by decide⟩ <;> split_ifs <;> simp <;> omega

theorem Add_unsigned_exact_witness :
    InRange_uint32_t 4294967295 ∧ InRange_uint32_t 7 ∧
    InRange_uint64_t 18446744073709551615 ∧ InRange_uint64_t 7 ∧
    (((Add_uint32_t_uint32_t 4294967295 7 5).2 = 1 ↔ 2 ^ 32 ≤ 4294967295 + 7) ∧
      ((Add_uint32_t_uint32_t 4294967295 7 5).2 = 0 →
        (Add_uint32_t_uint32_t 4294967295 7 5).1 = 4294967295 + 7)) ∧
    (((Add_uint64_t_uint64_t 18446744073709551615 7 5).2 = 1 ↔
        2 ^ 64 ≤ 18446744073709551615 + 7) ∧
      ((Add_uint64_t_uint64_t 18446744073709551615 7 5).2 = 0 →
        (Add_uint64_t_uint64_t 18446744073709551615 7 5).1 = 18446744073709551615 + 7)) ∧
    (Add_uint32_t_uint32_t 4294967295 1 5).2 = 1 :=
  ⟨by decide, by decide, by decide, by decide,
    Add_unsigned_exact 4294967295 7 18446744073709551615 7 5
      (by decide) (by decide) (by decide) (by decide)⟩

/-! ## Checked subtraction -/

/-- C4: for `uint32_t` operands `l32`, `r32` and `uint64_t` operands `l64`, `r64`,
the unsigned subtractions leave 1 in the flag exactly when `rhs > lhs`, and when
they leave 0 the returned value is the exact difference `lhs - rhs`. -/
theorem Subtract_unsigned_exact (l32 r32 l64 r64 : Nat) (flag : Int)
    (hl32 : InRange_uint32_t l32) (hr32 : InRange_uint32_t r32)
    (hl64 : InRange_uint64_t l64) (hr64 : InRange_uint64_t r64) :
    (((Subtract_uint32_t_uint32_t l32 r32 flag).2 = 1 ↔ r32 > l32) ∧
      ((Subtract_uint32_t_uint32_t l32 r32 flag).2 = 0 →
        ((Subtract_uint32_t_uint32_t l32 r32 flag).1 : Int) = (l32 : Int) - (r32 : Int))) ∧
    (((Subtract_uint64_t_uint64_t l64 r64 flag).2 = 1 ↔ r64 > l64) ∧
      ((Subtract_uint64_t_uint64_t l64 r64 flag).2 = 0 →
        ((Subtract_uint64_t_uint64_t l64 r64 flag).1 : Int) = (l64 : Int) - (r64 : Int))) := by
  simp only [InRange_uint32_t, InRange_uint64_t, UINT32_MAX, UINT64_MAX] at *
  simp only [Subtract_uint32_t_uint32_t, Subtract_uint64_t_uint64_t, toUnsigned]
  refine ⟨⟨?_, ?_⟩, ⟨?_, ?_⟩⟩ <;> split_ifs <;> simp <;> omega

theorem Subtract_unsigned_exact_witness :
    InRange_uint32_t 9 ∧ InRange_uint32_t 4 ∧
    InRange_uint64_t 4 ∧ InRange_uint64_t 9 ∧
    (((Subtract_uint32_t_uint32_t 9 4 5).2 = 1 ↔ 4 > 9) ∧
      ((Subtract_uint32_t_uint32_t 9 4 5).2 = 0 →
        ((Subtract_uint32_t_uint32_t 9 4 5).1 : Int) = ((9 : Nat) : Int) - ((4 : Nat) : Int))) ∧
    (((Subtract_uint64_t_uint64_t 4 9 5).2 = 1 ↔ 9 > 4) ∧
      ((Subtract_uint64_t_uint64_t 4 9 5).2 = 0 →
        ((Subtract_uint64_t_uint64_t 4 9 5).1 : Int) = ((4 : Nat) : Int) - ((9 : Nat) : Int))) :=
  ⟨by decide, by decide, by decide, by decide,
    Subtract_unsigned_exact 9 4 4 9 5 (by decide) (by decide) (by decide) (by decide)⟩

/-- C5: signed subtraction reproduces the addition routine literally: for all
operands and any previous flag, `Subtract_int32_t_int32_t` yields the same
(value, flag) pair as `Add_int32_t_int32_t`, and `Subtract_int64_t_int64_t` the
same pair as `Add_int64_t_int64_t`. -/
theorem Subtract_signed_eq_Add_signed (lhs rhs flag : Int) :
    Subtract_int32_t_int32_t lhs rhs flag = Add_int32_t_int32_t lhs rhs flag ∧
    Subtract_int64_t_int64_t lhs rhs flag = Add_int64_t_int64_t lhs rhs flag := by
  constructor
  · simp only [Subtract_int32_t_int32_t, Add_int32_t_int32_t]
  · simp only [Subtract_int64_t_int64_t, Add_int64_t_int64_t]

/-- C6 (evaluation of the code): on the operands 5 and 3 both signed
subtractions report success and return 8, the sum, where the exact difference
`lhs - rhs` is 2. -/
theorem Subtract_signed_returns_sum :
    ∀ flag : Int,
      Subtract_int32_t_int32_t 5 3 flag = (8, 0) ∧
      Subtract_int64_t_int64_t 5 3 flag = (8, 0) := by
  intro flag
  simp only [Subtract_int32_t_int32_t, Subtract_int64_t_int64_t]
  decide

/-! ## Checked multiplication -/

/-- C7: for `uint64_t` operands, `Multiply_uint64_t_uint64_t` leaves 1 in the flag
exactly when the exact (unbounded) product `a * b` is at least `2 ^ 64`. -/
theorem Multiply_uint64_t_uint64_t_overflow_iff (a b : Nat) (flag : Int)
    (ha : InRange_uint64_t a) (hb : InRange_uint64_t b) :
    (Multiply_uint64_t_uint64_t a b flag).2 = 1 ↔ 2 ^ 64 ≤ a * b :=
  Multiply_uint64_t_uint64_t_flag_iff a b flag ha hb

theorem Multiply_uint64_t_uint64_t_overflow_iff_witness :
    InRange_uint64_t 6442450944 ∧ InRange_uint64_t 4294967295 ∧
    ((Multiply_uint64_t_uint64_t 6442450944 4294967295 5).2 = 1 ↔
      2 ^ 64 ≤ 6442450944 * 4294967295) :=
  ⟨by decide, by decide,
    Multiply_uint64_t_uint64_t_overflow_iff 6442450944 4294967295 5 (by decide) (by decide)⟩

/-- C8 (evaluation of the code): `Multiply_uint64_t_uint64_t(2^32, 1)` reports
success and returns 0, the product of the low halves, where the exact product
is `2 ^ 32`. -/
theorem Multiply_uint64_t_uint64_t_loses_high_half :
    ∀ flag : Int, Multiply_uint64_t_uint64_t 4294967296 1 flag = (0, 0) := by
  intro flag
  simp only [Multiply_uint64_t_uint64_t, Multiply_uint64_t_uint64_t_accumulate]
  decide

/-- C9: for operands that both fit in 32 bits, `Multiply_uint64_t_uint64_t`
reports no overflow and returns the exact product `a * b`; on
`(4294967295, 4294967295)` it returns 18446744065119617025 with flag 0. -/
theorem Multiply_uint64_t_uint64_t_low_operands (a b : Nat) (flag : Int)
    (ha : a < 2 ^ 32) (hb : b < 2 ^ 32) :
    Multiply_uint64_t_uint64_t a b flag = (a * b, 0) ∧
    Multiply_uint64_t_uint64_t 4294967295 4294967295 flag = (18446744065119617025, 0) :=
  ⟨Multiply_uint64_t_uint64_t_of_lt a b flag ha hb,
    Multiply_uint64_t_uint64_t_of_lt 4294967295 4294967295 flag (by norm_num) (by norm_num)⟩

theorem Multiply_uint64_t_uint64_t_low_operands_witness :
    65537 < 2 ^ 32 ∧ 4294967295 < 2 ^ 32 ∧
    Multiply_uint64_t_uint64_t 65537 4294967295 5 = (65537 * 4294967295, 0) ∧
    Multiply_uint64_t_uint64_t 4294967295 4294967295 5 = (18446744065119617025, 0) :=
  ⟨by decide, by decide,
    Multiply_uint64_t_uint64_t_low_operands 65537 4294967295 5 (by decide) (by decide)⟩

/-- C10 (evaluation of the code): `Multiply_int64_t_int64_t(-9223372036854775808, -1)`
leaves 0 in the flag and returns 0, where the exact product `2 ^ 63` lies outside
`[-2^63, 2^63 - 1]`. -/
theorem Multiply_int64_t_int64_t_min_neg_one :
    ∀ flag : Int, Multiply_int64_t_int64_t (-9223372036854775808) (-1) flag = (0, 0) := by
  intro flag
  simp only [Multiply_int64_t_int64_t, Multiply_uint64_t_uint64_t,
    Multiply_uint64_t_uint64_t_accumulate]
  decide

/-! ## Helper lemmas for the narrower and pointer-width routines -/

/-- The magnitude handed to the unsigned multiply: for an `int64_t` value `a`,
`(uint64_t)a1` is `|a|`. -/
theorem toUnsigned_abs_int64_t (a : Int) (ha : InRange_int64_t a) :
    ((toUnsigned 64 (if a < 0 then toSigned 64 (getAbsoluteValue_int64_t a : Int) else a) : Nat)
      : Int) = if a < 0 then -a else a := by
  simp only [InRange_int64_t, INT64_MIN, INT64_MAX] at ha
  simp only [getAbsoluteValue_int64_t, complement_uint64_t, UINT64_MAX, toSigned, toUnsigned]
  split_ifs <;> omega

theorem SignedNegation_int64_t_eq_neg (v : Nat) (hv : v ≤ 2 ^ 63) :
    SignedNegation_int64_t v = -(v : Int) := by
  simp only [SignedNegation_int64_t, complement_uint64_t, UINT64_MAX, toSigned, toUnsigned]
  split_ifs <;> omega

/-- On `int32_t` operands the 64-bit signed multiply is exact: both magnitudes
fit 32 bits, so the unsigned multiply returns their whole product. -/
theorem Multiply_int64_t_int64_t_of_int32 (a b flag : Int)
    (ha : InRange_int32_t a) (hb : InRange_int32_t b) :
    Multiply_int64_t_int64_t a b flag = (a * b, 0) := by
  simp only [InRange_int32_t, INT32_MIN, INT32_MAX] at ha hb
  have hA := toUnsigned_abs_int64_t a (by simp only [InRange_int64_t, INT64_MIN, INT64_MAX]; omega)
  have hB := toUnsigned_abs_int64_t b (by simp only [InRange_int64_t, INT64_MIN, INT64_MAX]; omega)
  simp only [Multiply_int64_t_int64_t]
  generalize toUnsigned 64 (if a < 0 then toSigned 64 (getAbsoluteValue_int64_t a : Int) else a)
    = A at hA ⊢
  generalize toUnsigned 64 (if b < 0 then toSigned 64 (getAbsoluteValue_int64_t b : Int) else b)
    = B at hB ⊢
  have hA32 : A < 2 ^ 32 := by split_ifs at hA <;> omega
  have hB32 : B < 2 ^ 32 := by split_ifs at hB <;> omega
  have hA31 : A ≤ 2147483648 := by split_ifs at hA <;> omega
  have hB31 : B ≤ 2147483648 := by split_ifs at hB <;> omega
  have hP : A * B ≤ 2147483648 * 2147483648 := Nat.mul_le_mul hA31 hB31
  have hneg := SignedNegation_int64_t_eq_neg (A * B) (by omega)
  have hpos : toSigned 64 ((A * B : Nat) : Int) = ((A * B : Nat) : Int) := by
    simp only [toSigned]; split_ifs <;> omega
  have hmin : toUnsigned 64 INT64_MIN = 9223372036854775808 := by decide
  have hmax : toUnsigned 64 INT64_MAX = 9223372036854775807 := by decide
  rw [Multiply_uint64_t_uint64_t_of_lt A B flag hA32 hB32]
  simp only [hneg, hpos, hmin, hmax, if_true]
  by_cases h1 : a < 0 <;> by_cases h2 : b < 0 <;>
    simp only [h1, h2, if_true, if_false] at hA hB ⊢
  · have ea : a = -(A : Int) := by omega
    have eb : b = -(B : Int) := by omega
    subst ea eb
    simp
    omega
  · have ea : a = -(A : Int) := by omega
    have eb : b = (B : Int) := by omega
    subst ea eb
    simp
    omega
  · have ea : a = (A : Int) := by omega
    have eb : b = -(B : Int) := by omega
    subst ea eb
    simp
    omega
  · have ea : a = (A : Int) := by omega
    have eb : b = (B : Int) := by omega
    subst ea eb
    simp
    omega

/-- On `uint32_t` operands the 64-bit unsigned multiply is exact. -/
theorem Multiply_uint64_t_uint64_t_of_uint32 (a b : Nat) (flag : Int)
    (ha : InRange_uint32_t a) (hb : InRange_uint32_t b) :
    Multiply_uint64_t_uint64_t (toUnsigned 64 (a : Int)) (toUnsigned 64 (b : Int)) flag
      = (a * b, 0) := by
  simp only [InRange_uint32_t, UINT32_MAX] at ha hb
  have ea : toUnsigned 64 (a : Int) = a := by simp only [toUnsigned]; omega
  have eb : toUnsigned 64 (b : Int) = b := by simp only [toUnsigned]; omega
  rw [ea, eb]
  exact Multiply_uint64_t_uint64_t_of_lt a b flag (by omega) (by omega)

theorem toSigned_64_of_InRange (x : Int) (hx : InRange_int64_t x) : toSigned 64 x = x := by
  simp only [InRange_int64_t, INT64_MIN, INT64_MAX] at hx
  simp only [toSigned]
  split_ifs <;> omega

theorem toUnsigned_64_of_InRange (n : Nat) (hn : InRange_uint64_t n) :
    toUnsigned 64 (n : Int) = n := by
  simp only [InRange_uint64_t, UINT64_MAX] at hn
  simp only [toUnsigned]
  omega

/-- The signed 64-bit addition as a function of the exact sum. -/
theorem Add_int64_t_int64_t_eq (lhs rhs flag : Int)
    (hl : InRange_int64_t lhs) (hr : InRange_int64_t rhs) :
    Add_int64_t_int64_t lhs rhs flag =
      if lhs + rhs < INT64_MIN ∨ INT64_MAX < lhs + rhs then (0, 1) else (lhs + rhs, 0) := by
  simp only [InRange_int64_t, INT64_MIN, INT64_MAX] at *
  simp only [Add_int64_t_int64_t, toSigned, toUnsigned]
  split_ifs <;> simp <;> omega

/-- The unsigned 64-bit addition as a function of the exact sum. -/
theorem Add_uint64_t_uint64_t_eq (lhs rhs : Nat) (flag : Int)
    (hl : InRange_uint64_t lhs) (hr : InRange_uint64_t rhs) :
    Add_uint64_t_uint64_t lhs rhs flag =
      if 2 ^ 64 ≤ lhs + rhs then (0, 1) else (lhs + rhs, 0) := by
  simp only [InRange_uint64_t, UINT64_MAX] at *
  simp only [Add_uint64_t_uint64_t, UINT64_MAX]
  split_ifs <;> simp <;> omega

/-! ## Signed and 32-bit multiplication -/

/-- C11 (evaluation of the code): `Multiply_int64_t_int64_t(-9223372036854775808, 1)`
leaves 0 in the flag and returns 0, where the exact product is `-2 ^ 63`. -/
theorem Multiply_int64_t_int64_t_min_times_one :
    ∀ flag : Int, Multiply_int64_t_int64_t (-9223372036854775808) 1 flag = (0, 0) := by
  intro flag
  simp only [Multiply_int64_t_int64_t, Multiply_uint64_t_uint64_t,
    Multiply_uint64_t_uint64_t_accumulate]
  decide

/-- C12: the 32-bit multiplies are exact. For `int32_t` operands,
`Multiply_int32_t_int32_t` leaves 1 in the flag exactly when `a * b` lies outside
`[-2^31, 2^31 - 1]` and otherwise returns `a * b`; for `uint32_t` operands,
`Multiply_uint32_t_uint32_t` leaves 1 exactly when `m * n ≥ 2^32` and otherwise
returns `m * n`. -/
theorem Multiply_32_bit_exact (a b : Int) (m n : Nat) (flag : Int)
    (ha : InRange_int32_t a) (hb : InRange_int32_t b)
    (hm : InRange_uint32_t m) (hn : InRange_uint32_t n) :
    (((Multiply_int32_t_int32_t a b flag).2 = 1 ↔ (a * b < INT32_MIN ∨ INT32_MAX < a * b)) ∧
      ((Multiply_int32_t_int32_t a b flag).2 = 0 →
        (Multiply_int32_t_int32_t a b flag).1 = a * b)) ∧
    (((Multiply_uint32_t_uint32_t m n flag).2 = 1 ↔ 2 ^ 32 ≤ m * n) ∧
      ((Multiply_uint32_t_uint32_t m n flag).2 = 0 →
        (Multiply_uint32_t_uint32_t m n flag).1 = m * n)) := by
  have ea : toSigned 64 a = a := by
    simp only [InRange_int32_t, INT32_MIN, INT32_MAX] at ha
    simp only [toSigned]; split_ifs <;> omega
  have eb : toSigned 64 b = b := by
    simp only [InRange_int32_t, INT32_MIN, INT32_MAX] at hb
    simp only [toSigned]; split_ifs <;> omega
  simp only [Multiply_int32_t_int32_t, Multiply_uint32_t_uint32_t, ea, eb,
    Multiply_int64_t_int64_t_of_int32 a b flag ha hb,
    Multiply_uint64_t_uint64_t_of_uint32 m n flag hm hn]
  simp only [INT32_MIN, INT32_MAX, UINT32_MAX, toSigned, toUnsigned, true_and]
  generalize a * b = P
  generalize m * n = Q
  refine ⟨⟨?_, ?_⟩, ⟨?_, ?_⟩⟩ <;> split_ifs <;> simp <;> omega

theorem Multiply_32_bit_exact_witness :
    InRange_int32_t (-2147483648) ∧ InRange_int32_t (-1) ∧
    InRange_uint32_t 65536 ∧ InRange_uint32_t 65535 ∧
    (((Multiply_int32_t_int32_t (-2147483648) (-1) 5).2 = 1 ↔
        ((-2147483648) * (-1) < INT32_MIN ∨ INT32_MAX < (-2147483648) * (-1))) ∧
      ((Multiply_int32_t_int32_t (-2147483648) (-1) 5).2 = 0 →
        (Multiply_int32_t_int32_t (-2147483648) (-1) 5).1 = (-2147483648) * (-1))) ∧
    (((Multiply_uint32_t_uint32_t 65536 65535 5).2 = 1 ↔ 2 ^ 32 ≤ 65536 * 65535) ∧
      ((Multiply_uint32_t_uint32_t 65536 65535 5).2 = 0 →
        (Multiply_uint32_t_uint32_t 65536 65535 5).1 = 65536 * 65535)) :=
  ⟨by decide, by decide, by decide, by decide,
    Multiply_32_bit_exact (-2147483648) (-1) 65536 65535 5
      (by decide) (by decide) (by decide) (by decide)⟩

/-! ## Checked conversions -/

/-- C13: for each signed-to-narrower-signed conversion and every source value, the
flag is 0 exactly when the value lies in `[destMin, destMax]`, and on success the
returned value is the source value; `Convert_int32_t_to_int8_t(200)` reports
overflow and `Convert_int32_t_to_int8_t(100)` returns 100 with flag 0. -/
theorem Convert_signed_to_narrower_signed (a16 a32 a64 : Int) (flag : Int)
    (h16 : InRange_int16_t a16)
    (h32 : InRange_int32_t a32)
    (h64 : InRange_int64_t a64) :
    (((Convert_int16_t_to_int8_t a16 flag).2 = 0 ↔ (INT8_MIN ≤ a16 ∧ a16 ≤ INT8_MAX)) ∧
      ((Convert_int16_t_to_int8_t a16 flag).2 = 0 → (Convert_int16_t_to_int8_t a16 flag).1 = a16)) ∧
    (((Convert_int32_t_to_int8_t a32 flag).2 = 0 ↔ (INT8_MIN ≤ a32 ∧ a32 ≤ INT8_MAX)) ∧
      ((Convert_int32_t_to_int8_t a32 flag).2 = 0 → (Convert_int32_t_to_int8_t a32 flag).1 = a32)) ∧
    (((Convert_int64_t_to_int8_t a64 flag).2 = 0 ↔ (INT8_MIN ≤ a64 ∧ a64 ≤ INT8_MAX)) ∧
      ((Convert_int64_t_to_int8_t a64 flag).2 = 0 → (Convert_int64_t_to_int8_t a64 flag).1 = a64)) ∧
    (((Convert_int32_t_to_int16_t a32 flag).2 = 0 ↔ (INT16_MIN ≤ a32 ∧ a32 ≤ INT16_MAX)) ∧
      ((Convert_int32_t_to_int16_t a32 flag).2 = 0 → (Convert_int32_t_to_int16_t a32 flag).1 = a32)) ∧
    (((Convert_int64_t_to_int16_t a64 flag).2 = 0 ↔ (INT16_MIN ≤ a64 ∧ a64 ≤ INT16_MAX)) ∧
      ((Convert_int64_t_to_int16_t a64 flag).2 = 0 → (Convert_int64_t_to_int16_t a64 flag).1 = a64)) ∧
    (((Convert_int64_t_to_int32_t a64 flag).2 = 0 ↔ (INT32_MIN ≤ a64 ∧ a64 ≤ INT32_MAX)) ∧
      ((Convert_int64_t_to_int32_t a64 flag).2 = 0 → (Convert_int64_t_to_int32_t a64 flag).1 = a64)) ∧
    (Convert_int32_t_to_int8_t 200 flag).2 = 1 ∧
    Convert_int32_t_to_int8_t 100 flag = (100, 0) := by
  simp only [InRange_int16_t, InRange_int32_t, InRange_int64_t,
    INT16_MIN, INT16_MAX, INT32_MIN, INT32_MAX, INT64_MIN, INT64_MAX, UINT16_MAX, UINT32_MAX,
    UINT64_MAX] at *
  refine ⟨⟨?_, ?_⟩, ⟨?_, ?_⟩, ⟨?_, ?_⟩, ⟨?_, ?_⟩, ⟨?_, ?_⟩, ⟨?_, ?_⟩, ?_, ?_⟩
  all_goals simp only [
    Convert_int16_t_to_int8_t, Convert_int32_t_to_int8_t, Convert_int64_t_to_int8_t,
    Convert_int32_t_to_int16_t, Convert_int64_t_to_int16_t, Convert_int64_t_to_int32_t,
    c_gt, c_lt, commonType, promote, convertTo, c_int, int8_t, int16_t, int32_t, int64_t,
    uint8_t, uint16_t, uint32_t, uint64_t, INT8_MAX, INT8_MIN, INT16_MAX, INT16_MIN, INT32_MAX,
    INT32_MIN, INT64_MAX, INT64_MIN, UINT8_MAX, UINT16_MAX, UINT32_MAX, UINT64_MAX, toSigned,
    toUnsigned]
  all_goals simp
  all_goals split_ifs <;> simp <;> omega

theorem Convert_signed_to_narrower_signed_witness :
    InRange_int16_t (-128) ∧ InRange_int32_t 127 ∧ InRange_int64_t (-32768) ∧
    (((Convert_int16_t_to_int8_t (-128) 5).2 = 0 ↔ (INT8_MIN ≤ (-128) ∧ (-128) ≤ INT8_MAX)) ∧
      ((Convert_int16_t_to_int8_t (-128) 5).2 = 0 → (Convert_int16_t_to_int8_t (-128) 5).1 = (-128))) ∧
    (((Convert_int32_t_to_int8_t 127 5).2 = 0 ↔ (INT8_MIN ≤ 127 ∧ 127 ≤ INT8_MAX)) ∧
      ((Convert_int32_t_to_int8_t 127 5).2 = 0 → (Convert_int32_t_to_int8_t 127 5).1 = 127)) ∧
    (((Convert_int64_t_to_int8_t (-32768) 5).2 = 0 ↔ (INT8_MIN ≤ (-32768) ∧ (-32768) ≤ INT8_MAX)) ∧
      ((Convert_int64_t_to_int8_t (-32768) 5).2 = 0 → (Convert_int64_t_to_int8_t (-32768) 5).1 = (-32768))) ∧
    (((Convert_int32_t_to_int16_t 127 5).2 = 0 ↔ (INT16_MIN ≤ 127 ∧ 127 ≤ INT16_MAX)) ∧
      ((Convert_int32_t_to_int16_t 127 5).2 = 0 → (Convert_int32_t_to_int16_t 127 5).1 = 127)) ∧
    (((Convert_int64_t_to_int16_t (-32768) 5).2 = 0 ↔ (INT16_MIN ≤ (-32768) ∧ (-32768) ≤ INT16_MAX)) ∧
      ((Convert_int64_t_to_int16_t (-32768) 5).2 = 0 → (Convert_int64_t_to_int16_t (-32768) 5).1 = (-32768))) ∧
    (((Convert_int64_t_to_int32_t (-32768) 5).2 = 0 ↔ (INT32_MIN ≤ (-32768) ∧ (-32768) ≤ INT32_MAX)) ∧
      ((Convert_int64_t_to_int32_t (-32768) 5).2 = 0 → (Convert_int64_t_to_int32_t (-32768) 5).1 = (-32768))) ∧
    (Convert_int32_t_to_int8_t 200 5).2 = 1 ∧
    Convert_int32_t_to_int8_t 100 5 = (100, 0) :=
  ⟨by decide, by decide, by decide,
    Convert_signed_to_narrower_signed (-128) 127 (-32768) 5 (by decide) (by decide) (by decide)⟩

/-- C14: for each signed-to-unsigned narrowing conversion and every source value `a`,
the flag is 0 exactly when `0 ≤ a ≤ destMax`, and on success the returned value
is `a`. -/
theorem Convert_signed_to_narrower_unsigned (a16 a32 a64 : Int) (flag : Int)
    (h16 : InRange_int16_t a16)
    (h32 : InRange_int32_t a32)
    (h64 : InRange_int64_t a64) :
    (((Convert_int16_t_to_uint8_t a16 flag).2 = 0 ↔ (0 ≤ a16 ∧ a16 ≤ (UINT8_MAX : Int))) ∧
      ((Convert_int16_t_to_uint8_t a16 flag).2 = 0 → ((Convert_int16_t_to_uint8_t a16 flag).1 : Int) = a16)) ∧
    (((Convert_int32_t_to_uint8_t a32 flag).2 = 0 ↔ (0 ≤ a32 ∧ a32 ≤ (UINT8_MAX : Int))) ∧
      ((Convert_int32_t_to_uint8_t a32 flag).2 = 0 → ((Convert_int32_t_to_uint8_t a32 flag).1 : Int) = a32)) ∧
    (((Convert_int64_t_to_uint8_t a64 flag).2 = 0 ↔ (0 ≤ a64 ∧ a64 ≤ (UINT8_MAX : Int))) ∧
      ((Convert_int64_t_to_uint8_t a64 flag).2 = 0 → ((Convert_int64_t_to_uint8_t a64 flag).1 : Int) = a64)) ∧
    (((Convert_int32_t_to_uint16_t a32 flag).2 = 0 ↔ (0 ≤ a32 ∧ a32 ≤ (UINT16_MAX : Int))) ∧
      ((Convert_int32_t_to_uint16_t a32 flag).2 = 0 → ((Convert_int32_t_to_uint16_t a32 flag).1 : Int) = a32)) ∧
    (((Convert_int64_t_to_uint16_t a64 flag).2 = 0 ↔ (0 ≤ a64 ∧ a64 ≤ (UINT16_MAX : Int))) ∧
      ((Convert_int64_t_to_uint16_t a64 flag).2 = 0 → ((Convert_int64_t_to_uint16_t a64 flag).1 : Int) = a64)) ∧
    (((Convert_int64_t_to_uint32_t a64 flag).2 = 0 ↔ (0 ≤ a64 ∧ a64 ≤ (UINT32_MAX : Int))) ∧
      ((Convert_int64_t_to_uint32_t a64 flag).2 = 0 → ((Convert_int64_t_to_uint32_t a64 flag).1 : Int) = a64)) := by
  simp only [InRange_int16_t, InRange_int32_t, InRange_int64_t,
    INT16_MIN, INT16_MAX, INT32_MIN, INT32_MAX, INT64_MIN, INT64_MAX, UINT16_MAX, UINT32_MAX,
    UINT64_MAX] at *
  refine ⟨⟨?_, ?_⟩, ⟨?_, ?_⟩, ⟨?_, ?_⟩, ⟨?_, ?_⟩, ⟨?_, ?_⟩, ⟨?_, ?_⟩⟩
  all_goals simp only [
    Convert_int16_t_to_uint8_t, Convert_int32_t_to_uint8_t, Convert_int64_t_to_uint8_t,
    Convert_int32_t_to_uint16_t, Convert_int64_t_to_uint16_t, Convert_int64_t_to_uint32_t,
    c_gt, c_lt, commonType, promote, convertTo, c_int, int8_t, int16_t, int32_t, int64_t,
    uint8_t, uint16_t, uint32_t, uint64_t, INT8_MAX, INT8_MIN, INT16_MAX, INT16_MIN, INT32_MAX,
    INT32_MIN, INT64_MAX, INT64_MIN, UINT8_MAX, UINT16_MAX, UINT32_MAX, UINT64_MAX, toSigned,
    toUnsigned]
  all_goals simp
  all_goals split_ifs <;> simp <;> omega

theorem Convert_signed_to_narrower_unsigned_witness :
    InRange_int16_t (255 : Int) ∧ InRange_int32_t (65535 : Int) ∧ InRange_int64_t (4294967295 : Int) ∧
    (((Convert_int16_t_to_uint8_t (255 : Int) 5).2 = 0 ↔ (0 ≤ (255 : Int) ∧ (255 : Int) ≤ (UINT8_MAX : Int))) ∧
      ((Convert_int16_t_to_uint8_t (255 : Int) 5).2 = 0 → ((Convert_int16_t_to_uint8_t (255 : Int) 5).1 : Int) = (255 : Int))) ∧
    (((Convert_int32_t_to_uint8_t (65535 : Int) 5).2 = 0 ↔ (0 ≤ (65535 : Int) ∧ (65535 : Int) ≤ (UINT8_MAX : Int))) ∧
      ((Convert_int32_t_to_uint8_t (65535 : Int) 5).2 = 0 → ((Convert_int32_t_to_uint8_t (65535 : Int) 5).1 : Int) = (65535 : Int))) ∧
    (((Convert_int64_t_to_uint8_t (4294967295 : Int) 5).2 = 0 ↔ (0 ≤ (4294967295 : Int) ∧ (4294967295 : Int) ≤ (UINT8_MAX : Int))) ∧
      ((Convert_int64_t_to_uint8_t (4294967295 : Int) 5).2 = 0 → ((Convert_int64_t_to_uint8_t (4294967295 : Int) 5).1 : Int) = (4294967295 : Int))) ∧
    (((Convert_int32_t_to_uint16_t (65535 : Int) 5).2 = 0 ↔ (0 ≤ (65535 : Int) ∧ (65535 : Int) ≤ (UINT16_MAX : Int))) ∧
      ((Convert_int32_t_to_uint16_t (65535 : Int) 5).2 = 0 → ((Convert_int32_t_to_uint16_t (65535 : Int) 5).1 : Int) = (65535 : Int))) ∧
    (((Convert_int64_t_to_uint16_t (4294967295 : Int) 5).2 = 0 ↔ (0 ≤ (4294967295 : Int) ∧ (4294967295 : Int) ≤ (UINT16_MAX : Int))) ∧
      ((Convert_int64_t_to_uint16_t (4294967295 : Int) 5).2 = 0 → ((Convert_int64_t_to_uint16_t (4294967295 : Int) 5).1 : Int) = (4294967295 : Int))) ∧
    (((Convert_int64_t_to_uint32_t (4294967295 : Int) 5).2 = 0 ↔ (0 ≤ (4294967295 : Int) ∧ (4294967295 : Int) ≤ (UINT32_MAX : Int))) ∧
      ((Convert_int64_t_to_uint32_t (4294967295 : Int) 5).2 = 0 → ((Convert_int64_t_to_uint32_t (4294967295 : Int) 5).1 : Int) = (4294967295 : Int))) :=
  ⟨by decide, by decide, by decide,
    Convert_signed_to_narrower_unsigned (255 : Int) (65535 : Int) (4294967295 : Int) 5 (by decide) (by decide) (by decide)⟩

/-- C15 (evaluation of the code): on the source value 100 each of the five
unsigned-to-signed narrowing conversions with a 32- or 64-bit source leaves 1 in
the flag and returns 0: the test `a < INT8_MIN` (and its siblings) is evaluated
in the unsigned type of `a`, where the negative limit is a huge value. -/
theorem Convert_unsigned_to_narrower_signed_rejects_100 :
    ∀ flag : Int,
      Convert_uint32_t_to_int8_t 100 flag = (0, 1) ∧
      Convert_uint64_t_to_int8_t 100 flag = (0, 1) ∧
      Convert_uint32_t_to_int16_t 100 flag = (0, 1) ∧
      Convert_uint64_t_to_int16_t 100 flag = (0, 1) ∧
      Convert_uint64_t_to_int32_t 100 flag = (0, 1) := by
  intro flag
  simp only [Convert_uint32_t_to_int8_t, Convert_uint64_t_to_int8_t, Convert_uint32_t_to_int16_t,
    Convert_uint64_t_to_int16_t, Convert_uint64_t_to_int32_t]
  decide

/-- C16: for each unsigned-to-narrower-unsigned conversion and every source value
`a`, the flag is 0 exactly when `a ≤ destMax`, and on success the returned value
is `a`. -/
theorem Convert_unsigned_to_narrower_unsigned (a16 a32 a64 : Nat) (flag : Int)
    (h16 : InRange_uint16_t a16)
    (h32 : InRange_uint32_t a32)
    (h64 : InRange_uint64_t a64) :
    (((Convert_uint16_t_to_uint8_t a16 flag).2 = 0 ↔ a16 ≤ UINT8_MAX) ∧
      ((Convert_uint16_t_to_uint8_t a16 flag).2 = 0 → (Convert_uint16_t_to_uint8_t a16 flag).1 = a16)) ∧
    (((Convert_uint32_t_to_uint8_t a32 flag).2 = 0 ↔ a32 ≤ UINT8_MAX) ∧
      ((Convert_uint32_t_to_uint8_t a32 flag).2 = 0 → (Convert_uint32_t_to_uint8_t a32 flag).1 = a32)) ∧
    (((Convert_uint64_t_to_uint8_t a64 flag).2 = 0 ↔ a64 ≤ UINT8_MAX) ∧
      ((Convert_uint64_t_to_uint8_t a64 flag).2 = 0 → (Convert_uint64_t_to_uint8_t a64 flag).1 = a64)) ∧
    (((Convert_uint32_t_to_uint16_t a32 flag).2 = 0 ↔ a32 ≤ UINT16_MAX) ∧
      ((Convert_uint32_t_to_uint16_t a32 flag).2 = 0 → (Convert_uint32_t_to_uint16_t a32 flag).1 = a32)) ∧
    (((Convert_uint64_t_to_uint16_t a64 flag).2 = 0 ↔ a64 ≤ UINT16_MAX) ∧
      ((Convert_uint64_t_to_uint16_t a64 flag).2 = 0 → (Convert_uint64_t_to_uint16_t a64 flag).1 = a64)) ∧
    (((Convert_uint64_t_to_uint32_t a64 flag).2 = 0 ↔ a64 ≤ UINT32_MAX) ∧
      ((Convert_uint64_t_to_uint32_t a64 flag).2 = 0 → (Convert_uint64_t_to_uint32_t a64 flag).1 = a64)) := by
  simp only [InRange_uint16_t, InRange_uint32_t, InRange_uint64_t,
    INT16_MIN, INT16_MAX, INT32_MIN, INT32_MAX, INT64_MIN, INT64_MAX, UINT16_MAX, UINT32_MAX,
    UINT64_MAX] at *
  refine ⟨⟨?_, ?_⟩, ⟨?_, ?_⟩, ⟨?_, ?_⟩, ⟨?_, ?_⟩, ⟨?_, ?_⟩, ⟨?_, ?_⟩⟩
  all_goals simp only [
    Convert_uint16_t_to_uint8_t, Convert_uint32_t_to_uint8_t, Convert_uint64_t_to_uint8_t,
    Convert_uint32_t_to_uint16_t, Convert_uint64_t_to_uint16_t, Convert_uint64_t_to_uint32_t,
    c_gt, c_lt, commonType, promote, convertTo, c_int, int8_t, int16_t, int32_t, int64_t,
    uint8_t, uint16_t, uint32_t, uint64_t, INT8_MAX, INT8_MIN, INT16_MAX, INT16_MIN, INT32_MAX,
    INT32_MIN, INT64_MAX, INT64_MIN, UINT8_MAX, UINT16_MAX, UINT32_MAX, UINT64_MAX, toSigned,
    toUnsigned]
  all_goals simp
  all_goals split_ifs <;> simp <;> omega

theorem Convert_unsigned_to_narrower_unsigned_witness :
    InRange_uint16_t 255 ∧ InRange_uint32_t 65535 ∧ InRange_uint64_t 4294967295 ∧
    (((Convert_uint16_t_to_uint8_t 255 5).2 = 0 ↔ 255 ≤ UINT8_MAX) ∧
      ((Convert_uint16_t_to_uint8_t 255 5).2 = 0 → (Convert_uint16_t_to_uint8_t 255 5).1 = 255)) ∧
    (((Convert_uint32_t_to_uint8_t 65535 5).2 = 0 ↔ 65535 ≤ UINT8_MAX) ∧
      ((Convert_uint32_t_to_uint8_t 65535 5).2 = 0 → (Convert_uint32_t_to_uint8_t 65535 5).1 = 65535)) ∧
    (((Convert_uint64_t_to_uint8_t 4294967295 5).2 = 0 ↔ 4294967295 ≤ UINT8_MAX) ∧
      ((Convert_uint64_t_to_uint8_t 4294967295 5).2 = 0 → (Convert_uint64_t_to_uint8_t 4294967295 5).1 = 4294967295)) ∧
    (((Convert_uint32_t_to_uint16_t 65535 5).2 = 0 ↔ 65535 ≤ UINT16_MAX) ∧
      ((Convert_uint32_t_to_uint16_t 65535 5).2 = 0 → (Convert_uint32_t_to_uint16_t 65535 5).1 = 65535)) ∧
    (((Convert_uint64_t_to_uint16_t 4294967295 5).2 = 0 ↔ 4294967295 ≤ UINT16_MAX) ∧
      ((Convert_uint64_t_to_uint16_t 4294967295 5).2 = 0 → (Convert_uint64_t_to_uint16_t 4294967295 5).1 = 4294967295)) ∧
    (((Convert_uint64_t_to_uint32_t 4294967295 5).2 = 0 ↔ 4294967295 ≤ UINT32_MAX) ∧
      ((Convert_uint64_t_to_uint32_t 4294967295 5).2 = 0 → (Convert_uint64_t_to_uint32_t 4294967295 5).1 = 4294967295)) :=
  ⟨by decide, by decide, by decide,
    Convert_unsigned_to_narrower_unsigned 255 65535 4294967295 5 (by decide) (by decide) (by decide)⟩

/-- C17: narrowing then widening is the identity. For an `int64_t` value `a`, if
`Convert_int64_t_to_int32_t` succeeds with value `v` then `(int64_t)v` is `a`, and
it does succeed for every `a` in the `int32_t` range; for a `uint64_t` value `u`,
if `Convert_uint64_t_to_uint32_t` succeeds with value `v` then `(uint64_t)v` is
`u`, and it does succeed for every `u` in the `uint32_t` range. -/
theorem Convert_narrow_then_widen (a : Int) (u : Nat) (flag : Int)
    (ha : InRange_int64_t a) (hu : InRange_uint64_t u) :
    ((Convert_int64_t_to_int32_t a flag).2 = 0 →
      toSigned 64 (Convert_int64_t_to_int32_t a flag).1 = a) ∧
    (InRange_int32_t a → (Convert_int64_t_to_int32_t a flag).2 = 0) ∧
    ((Convert_uint64_t_to_uint32_t u flag).2 = 0 →
      toUnsigned 64 ((Convert_uint64_t_to_uint32_t u flag).1 : Int) = u) ∧
    (InRange_uint32_t u → (Convert_uint64_t_to_uint32_t u flag).2 = 0) := by
  simp only [InRange_int64_t, InRange_uint64_t, InRange_int32_t, InRange_uint32_t, INT32_MIN,
    INT32_MAX, INT64_MIN, INT64_MAX, UINT32_MAX, UINT64_MAX] at *
  refine ⟨?_, ?_, ?_, ?_⟩
  all_goals simp only [Convert_int64_t_to_int32_t, Convert_uint64_t_to_uint32_t,
    c_gt, c_lt, commonType, promote, convertTo, c_int, int32_t, int64_t, uint32_t, uint64_t,
    INT32_MAX, INT32_MIN, UINT32_MAX, toSigned, toUnsigned]
  all_goals simp
  all_goals split_ifs <;> simp <;> omega

theorem Convert_narrow_then_widen_witness :
    InRange_int64_t (-2147483648) ∧ InRange_uint64_t 4294967295 ∧
    ((Convert_int64_t_to_int32_t (-2147483648) 5).2 = 0 →
      toSigned 64 (Convert_int64_t_to_int32_t (-2147483648) 5).1 = -2147483648) ∧
    (InRange_int32_t (-2147483648) → (Convert_int64_t_to_int32_t (-2147483648) 5).2 = 0) ∧
    ((Convert_uint64_t_to_uint32_t 4294967295 5).2 = 0 →
      toUnsigned 64 ((Convert_uint64_t_to_uint32_t 4294967295 5).1 : Int) = 4294967295) ∧
    (InRange_uint32_t 4294967295 → (Convert_uint64_t_to_uint32_t 4294967295 5).2 = 0) :=
  ⟨by decide, by decide,
    Convert_narrow_then_widen (-2147483648) 4294967295 5 (by decide) (by decide)⟩

/-! ## The overflow convention -/

/-- C18: every `Add_*`, `Subtract_*`, `Multiply_*` and `Convert_*` routine of
`OverflowChecker.c` is a total function of its operands; for every operand
(in or out of the range of its C type), every pointer width `W` and every
previous content `flag` of the flag cell, the flag after the call is 0 or 1, and
whenever it is 1 the returned value is 0. -/
theorem overflow_convention (W : Nat) (x y : Int) (m n pRet : Nat) (flag : Int) :
    ObeysOverflowConvention (Add_int32_t_int32_t x y flag) ∧
    ObeysOverflowConvention (Add_int64_t_int64_t x y flag) ∧
    ObeysOverflowConvention (Add_int32_t_intptr_t W x y flag) ∧
    ObeysOverflowConvention (Add_intptr_t_intptr_t W x y flag) ∧
    ObeysOverflowConvention (Add_uint32_t_uint32_t m n flag) ∧
    ObeysOverflowConvention (Add_uint64_t_uint64_t m n flag) ∧
    ObeysOverflowConvention (Add_uint32_t_uintptr_t W m n flag) ∧
    ObeysOverflowConvention (Add_uintptr_t_uintptr_t W m n flag) ∧
    ObeysOverflowConvention (Subtract_int32_t_int32_t x y flag) ∧
    ObeysOverflowConvention (Subtract_int64_t_int64_t x y flag) ∧
    ObeysOverflowConvention (Subtract_int32_t_intptr_t W x y flag) ∧
    ObeysOverflowConvention (Subtract_intptr_t_intptr_t W x y flag) ∧
    ObeysOverflowConvention (Subtract_uint32_t_uint32_t m n flag) ∧
    ObeysOverflowConvention (Subtract_uint64_t_uint64_t m n flag) ∧
    ObeysOverflowConvention (Subtract_uint32_t_uintptr_t W m n flag) ∧
    ObeysOverflowConvention (Subtract_uintptr_t_uintptr_t W m n flag) ∧
    ObeysOverflowConvention (Multiply_uint64_t_uint64_t m n flag) ∧
    ObeysOverflowConvention (Multiply_int64_t_int64_t x y flag) ∧
    ObeysOverflowConvention (Multiply_int32_t_int32_t x y flag) ∧
    ObeysOverflowConvention (Multiply_int32_t_intptr_t W x y flag) ∧
    ObeysOverflowConvention (Multiply_intptr_t_intptr_t W x y flag) ∧
    ObeysOverflowConvention (Multiply_uint32_t_uint32_t m n flag) ∧
    ObeysOverflowConvention (Multiply_uint32_t_uintptr_t W m n flag) ∧
    ObeysOverflowConvention (Multiply_uintptr_t_uintptr_t W m n pRet flag) ∧
    ObeysOverflowConvention (Convert_int16_t_to_int8_t x flag) ∧
    ObeysOverflowConvention (Convert_int32_t_to_int8_t x flag) ∧
    ObeysOverflowConvention (Convert_int64_t_to_int8_t x flag) ∧
    ObeysOverflowConvention (Convert_intptr_t_to_int8_t W x flag) ∧
    ObeysOverflowConvention (Convert_int32_t_to_int16_t x flag) ∧
    ObeysOverflowConvention (Convert_int64_t_to_int16_t x flag) ∧
    ObeysOverflowConvention (Convert_intptr_t_to_int16_t W x flag) ∧
    ObeysOverflowConvention (Convert_int64_t_to_int32_t x flag) ∧
    ObeysOverflowConvention (Convert_intptr_t_to_int32_t W x flag) ∧
    ObeysOverflowConvention (Convert_intptr_t_to_int64_t W x flag) ∧
    ObeysOverflowConvention (Convert_int16_t_to_uint8_t x flag) ∧
    ObeysOverflowConvention (Convert_int32_t_to_uint8_t x flag) ∧
    ObeysOverflowConvention (Convert_int64_t_to_uint8_t x flag) ∧
    ObeysOverflowConvention (Convert_intptr_t_to_uint8_t W x flag) ∧
    ObeysOverflowConvention (Convert_int32_t_to_uint16_t x flag) ∧
    ObeysOverflowConvention (Convert_int64_t_to_uint16_t x flag) ∧
    ObeysOverflowConvention (Convert_intptr_t_to_uint16_t W x flag) ∧
    ObeysOverflowConvention (Convert_int64_t_to_uint32_t x flag) ∧
    ObeysOverflowConvention (Convert_intptr_t_to_uint32_t W x flag) ∧
    ObeysOverflowConvention (Convert_intptr_t_to_uint64_t W x flag) ∧
    ObeysOverflowConvention (Convert_int64_t_to_intptr_t W x flag) ∧
    ObeysOverflowConvention (Convert_int64_t_to_uintptr_t W x flag) ∧
    ObeysOverflowConvention (Convert_uint16_t_to_int8_t m flag) ∧
    ObeysOverflowConvention (Convert_uint32_t_to_int8_t m flag) ∧
    ObeysOverflowConvention (Convert_uint64_t_to_int8_t m flag) ∧
    ObeysOverflowConvention (Convert_uintptr_t_to_int8_t W m flag) ∧
    ObeysOverflowConvention (Convert_uint32_t_to_int16_t m flag) ∧
    ObeysOverflowConvention (Convert_uint64_t_to_int16_t m flag) ∧
    ObeysOverflowConvention (Convert_uintptr_t_to_int16_t W m flag) ∧
    ObeysOverflowConvention (Convert_uint64_t_to_int32_t m flag) ∧
    ObeysOverflowConvention (Convert_uintptr_t_to_int32_t W m flag) ∧
    ObeysOverflowConvention (Convert_uintptr_t_to_int64_t W m flag) ∧
    ObeysOverflowConvention (Convert_uint16_t_to_uint8_t m flag) ∧
    ObeysOverflowConvention (Convert_uint32_t_to_uint8_t m flag) ∧
    ObeysOverflowConvention (Convert_uint64_t_to_uint8_t m flag) ∧
    ObeysOverflowConvention (Convert_uintptr_t_to_uint8_t W m flag) ∧
    ObeysOverflowConvention (Convert_uint32_t_to_uint16_t m flag) ∧
    ObeysOverflowConvention (Convert_uint64_t_to_uint16_t m flag) ∧
    ObeysOverflowConvention (Convert_uintptr_t_to_uint16_t W m flag) ∧
    ObeysOverflowConvention (Convert_uint64_t_to_uint32_t m flag) ∧
    ObeysOverflowConvention (Convert_uintptr_t_to_uint32_t W m flag) ∧
    ObeysOverflowConvention (Convert_uintptr_t_to_uint64_t W m flag) ∧
    ObeysOverflowConvention (Convert_uint64_t_to_intptr_t W m flag) ∧
    ObeysOverflowConvention (Convert_uint64_t_to_uintptr_t W m flag) := by
  refine ⟨?_, ?_, ?_, ?_, ?_, ?_, ?_, ?_, ?_, ?_, ?_, ?_, ?_, ?_, ?_, ?_, ?_, ?_, ?_, ?_, ?_, ?_, ?_,
    ?_, ?_, ?_, ?_, ?_, ?_, ?_, ?_, ?_, ?_, ?_, ?_, ?_, ?_, ?_, ?_, ?_, ?_, ?_, ?_, ?_, ?_, ?_,
    ?_, ?_, ?_, ?_, ?_, ?_, ?_, ?_, ?_, ?_, ?_, ?_, ?_, ?_, ?_, ?_, ?_, ?_, ?_, ?_, ?_, ?_⟩
  · simp only [ObeysOverflowConvention, Add_int32_t_int32_t]; split_ifs <;> simp
  · simp only [ObeysOverflowConvention, Add_int64_t_int64_t]; split_ifs <;> simp
  · simp only [ObeysOverflowConvention, Add_int32_t_intptr_t]; split_ifs <;> simp
  · simp only [ObeysOverflowConvention, Add_intptr_t_intptr_t]; split_ifs <;> simp
  · simp only [ObeysOverflowConvention, Add_uint32_t_uint32_t]; split_ifs <;> simp
  · simp only [ObeysOverflowConvention, Add_uint64_t_uint64_t]; split_ifs <;> simp
  · simp only [ObeysOverflowConvention, Add_uint32_t_uintptr_t]; split_ifs <;> simp
  · simp only [ObeysOverflowConvention, Add_uintptr_t_uintptr_t]; split_ifs <;> simp
  · simp only [ObeysOverflowConvention, Subtract_int32_t_int32_t]; split_ifs <;> simp
  · simp only [ObeysOverflowConvention, Subtract_int64_t_int64_t]; split_ifs <;> simp
  · simp only [ObeysOverflowConvention, Subtract_int32_t_intptr_t]; split_ifs <;> simp
  · simp only [ObeysOverflowConvention, Subtract_intptr_t_intptr_t]; split_ifs <;> simp
  · simp only [ObeysOverflowConvention, Subtract_uint32_t_uint32_t]; split_ifs <;> simp
  · simp only [ObeysOverflowConvention, Subtract_uint64_t_uint64_t]; split_ifs <;> simp
  · simp only [ObeysOverflowConvention, Subtract_uint32_t_uintptr_t]; split_ifs <;> simp
  · simp only [ObeysOverflowConvention, Subtract_uintptr_t_uintptr_t]; split_ifs <;> simp
  · simp only [ObeysOverflowConvention, Multiply_uint64_t_uint64_t, Multiply_uint64_t_uint64_t_accumulate]
    split_ifs <;> simp
  · simp only [ObeysOverflowConvention, Multiply_int64_t_int64_t]; split_ifs <;> simp
  · simp only [ObeysOverflowConvention, Multiply_int32_t_int32_t]; split_ifs <;> simp
  · simp only [ObeysOverflowConvention, Multiply_int32_t_intptr_t]; split_ifs <;> simp
  · simp only [ObeysOverflowConvention, Multiply_intptr_t_intptr_t]; split_ifs <;> simp
  · simp only [ObeysOverflowConvention, Multiply_uint32_t_uint32_t]; split_ifs <;> simp
  · simp only [ObeysOverflowConvention, Multiply_uint32_t_uintptr_t]; split_ifs <;> simp
  · simp only [ObeysOverflowConvention, Multiply_uintptr_t_uintptr_t]; split_ifs <;> simp
  · simp only [ObeysOverflowConvention, Convert_int16_t_to_int8_t]; split_ifs <;> simp
  · simp only [ObeysOverflowConvention, Convert_int32_t_to_int8_t]; split_ifs <;> simp
  · simp only [ObeysOverflowConvention, Convert_int64_t_to_int8_t]; split_ifs <;> simp
  · simp only [ObeysOverflowConvention, Convert_intptr_t_to_int8_t]; split_ifs <;> simp
  · simp only [ObeysOverflowConvention, Convert_int32_t_to_int16_t]; split_ifs <;> simp
  · simp only [ObeysOverflowConvention, Convert_int64_t_to_int16_t]; split_ifs <;> simp
  · simp only [ObeysOverflowConvention, Convert_intptr_t_to_int16_t]; split_ifs <;> simp
  · simp only [ObeysOverflowConvention, Convert_int64_t_to_int32_t]; split_ifs <;> simp
  · simp only [ObeysOverflowConvention, Convert_intptr_t_to_int32_t]; split_ifs <;> simp
  · simp only [ObeysOverflowConvention, Convert_intptr_t_to_int64_t]; split_ifs <;> simp
  · simp only [ObeysOverflowConvention, Convert_int16_t_to_uint8_t]; split_ifs <;> simp
  · simp only [ObeysOverflowConvention, Convert_int32_t_to_uint8_t]; split_ifs <;> simp
  · simp only [ObeysOverflowConvention, Convert_int64_t_to_uint8_t]; split_ifs <;> simp
  · simp only [ObeysOverflowConvention, Convert_intptr_t_to_uint8_t]; split_ifs <;> simp
  · simp only [ObeysOverflowConvention, Convert_int32_t_to_uint16_t]; split_ifs <;> simp
  · simp only [ObeysOverflowConvention, Convert_int64_t_to_uint16_t]; split_ifs <;> simp
  · simp only [ObeysOverflowConvention, Convert_intptr_t_to_uint16_t]; split_ifs <;> simp
  · simp only [ObeysOverflowConvention, Convert_int64_t_to_uint32_t]; split_ifs <;> simp
  · simp only [ObeysOverflowConvention, Convert_intptr_t_to_uint32_t]; split_ifs <;> simp
  · simp only [ObeysOverflowConvention, Convert_intptr_t_to_uint64_t]; split_ifs <;> simp
  · simp only [ObeysOverflowConvention, Convert_int64_t_to_intptr_t]; split_ifs <;> simp
  · simp only [ObeysOverflowConvention, Convert_int64_t_to_uintptr_t]; split_ifs <;> simp
  · simp only [ObeysOverflowConvention, Convert_uint16_t_to_int8_t]; split_ifs <;> simp
  · simp only [ObeysOverflowConvention, Convert_uint32_t_to_int8_t]; split_ifs <;> simp
  · simp only [ObeysOverflowConvention, Convert_uint64_t_to_int8_t]; split_ifs <;> simp
  · simp only [ObeysOverflowConvention, Convert_uintptr_t_to_int8_t]; split_ifs <;> simp
  · simp only [ObeysOverflowConvention, Convert_uint32_t_to_int16_t]; split_ifs <;> simp
  · simp only [ObeysOverflowConvention, Convert_uint64_t_to_int16_t]; split_ifs <;> simp
  · simp only [ObeysOverflowConvention, Convert_uintptr_t_to_int16_t]; split_ifs <;> simp
  · simp only [ObeysOverflowConvention, Convert_uint64_t_to_int32_t]; split_ifs <;> simp
  · simp only [ObeysOverflowConvention, Convert_uintptr_t_to_int32_t]; split_ifs <;> simp
  · simp only [ObeysOverflowConvention, Convert_uintptr_t_to_int64_t]; split_ifs <;> simp
  · simp only [ObeysOverflowConvention, Convert_uint16_t_to_uint8_t]; split_ifs <;> simp
  · simp only [ObeysOverflowConvention, Convert_uint32_t_to_uint8_t]; split_ifs <;> simp
  · simp only [ObeysOverflowConvention, Convert_uint64_t_to_uint8_t]; split_ifs <;> simp
  · simp only [ObeysOverflowConvention, Convert_uintptr_t_to_uint8_t]; split_ifs <;> simp
  · simp only [ObeysOverflowConvention, Convert_uint32_t_to_uint16_t]; split_ifs <;> simp
  · simp only [ObeysOverflowConvention, Convert_uint64_t_to_uint16_t]; split_ifs <;> simp
  · simp only [ObeysOverflowConvention, Convert_uintptr_t_to_uint16_t]; split_ifs <;> simp
  · simp only [ObeysOverflowConvention, Convert_uint64_t_to_uint32_t]; split_ifs <;> simp
  · simp only [ObeysOverflowConvention, Convert_uintptr_t_to_uint32_t]; split_ifs <;> simp
  · simp only [ObeysOverflowConvention, Convert_uintptr_t_to_uint64_t]; split_ifs <;> simp
  · simp only [ObeysOverflowConvention, Convert_uint64_t_to_intptr_t]; split_ifs <;> simp
  · simp only [ObeysOverflowConvention, Convert_uint64_t_to_uintptr_t]; split_ifs <;> simp

/-! ## Pointer-width addition -/

/-- C19: with pointer width `W` in {32, 64}, `Add_intptr_t_intptr_t` leaves 1 in the
flag exactly when `lhs + rhs` lies outside `[-2^(W-1), 2^(W-1) - 1]` and otherwise
returns `lhs + rhs`; `Add_uintptr_t_uintptr_t` leaves 1 exactly when
`lhs + rhs ≥ 2^W` and otherwise returns `lhs + rhs`. For `W = 32` the inner 64-bit
additions never flag. -/
theorem Add_pointer_width_exact (W : Nat) (lhs rhs : Int) (ul ur : Nat) (flag : Int)
    (hW : W = 32 ∨ W = 64)
    (hl : InRange_intptr_t W lhs) (hr : InRange_intptr_t W rhs)
    (hul : InRange_uintptr_t W ul) (hur : InRange_uintptr_t W ur) :
    (((Add_intptr_t_intptr_t W lhs rhs flag).2 = 1 ↔
        (lhs + rhs < INTPTR_MIN W ∨ INTPTR_MAX W < lhs + rhs)) ∧
      ((Add_intptr_t_intptr_t W lhs rhs flag).2 = 0 →
        (Add_intptr_t_intptr_t W lhs rhs flag).1 = lhs + rhs)) ∧
    (((Add_uintptr_t_uintptr_t W ul ur flag).2 = 1 ↔ 2 ^ W ≤ ul + ur) ∧
      ((Add_uintptr_t_uintptr_t W ul ur flag).2 = 0 →
        (Add_uintptr_t_uintptr_t W ul ur flag).1 = ul + ur)) ∧
    (W = 32 →
      (Add_int64_t_int64_t (toSigned 64 lhs) (toSigned 64 rhs) flag).2 = 0 ∧
      (Add_uint64_t_uint64_t (toUnsigned 64 (ul : Int)) (toUnsigned 64 (ur : Int)) flag).2
        = 0) := by
  have h64 : ∀ z : Int, InRange_intptr_t W z → InRange_int64_t z := by
    intro z hz
    rcases hW with rfl | rfl <;>
      simp only [InRange_intptr_t, INTPTR_MIN, INTPTR_MAX, InRange_int64_t, INT64_MIN,
        INT64_MAX] at * <;> norm_num at hz <;> omega
  have hu64 : ∀ k : Nat, InRange_uintptr_t W k → InRange_uint64_t k := by
    intro k hk
    rcases hW with rfl | rfl <;>
      simp only [InRange_uintptr_t, UINTPTR_MAX, InRange_uint64_t, UINT64_MAX] at * <;>
      norm_num at hk <;> omega
  simp only [Add_intptr_t_intptr_t, Add_uintptr_t_uintptr_t,
    toSigned_64_of_InRange lhs (h64 lhs hl), toSigned_64_of_InRange rhs (h64 rhs hr),
    toUnsigned_64_of_InRange ul (hu64 ul hul), toUnsigned_64_of_InRange ur (hu64 ur hur),
    Add_int64_t_int64_t_eq lhs rhs flag (h64 lhs hl) (h64 rhs hr),
    Add_uint64_t_uint64_t_eq ul ur flag (hu64 ul hul) (hu64 ur hur)]
  rcases hW with rfl | rfl
  · simp only [InRange_intptr_t, InRange_uintptr_t, INTPTR_MIN, INTPTR_MAX, UINTPTR_MAX,
      INT64_MIN, INT64_MAX, toSigned, toUnsigned] at *
    norm_num at hl hr hul hur
    refine ⟨⟨?_, ?_⟩, ⟨?_, ?_⟩, fun _ => ⟨?_, ?_⟩⟩
    all_goals split_ifs <;> simp <;> omega
  · simp only [InRange_intptr_t, InRange_uintptr_t, INTPTR_MIN, INTPTR_MAX, UINTPTR_MAX,
      INT64_MIN, INT64_MAX, toSigned, toUnsigned] at *
    norm_num at hl hr hul hur
    refine ⟨⟨?_, ?_⟩, ⟨?_, ?_⟩, fun h => absurd h (by decide)⟩
    all_goals split_ifs <;> simp <;> omega

theorem Add_pointer_width_exact_witness :
    (32 = 32 ∨ 32 = 64) ∧
    InRange_intptr_t 32 2147483647 ∧ InRange_intptr_t 32 1 ∧
    InRange_uintptr_t 32 4294967295 ∧ InRange_uintptr_t 32 1 ∧
    (((Add_intptr_t_intptr_t 32 2147483647 1 5).2 = 1 ↔
        (2147483647 + 1 < INTPTR_MIN 32 ∨ INTPTR_MAX 32 < 2147483647 + 1)) ∧
      ((Add_intptr_t_intptr_t 32 2147483647 1 5).2 = 0 →
        (Add_intptr_t_intptr_t 32 2147483647 1 5).1 = 2147483647 + 1)) ∧
    (((Add_uintptr_t_uintptr_t 32 4294967295 1 5).2 = 1 ↔ 2 ^ 32 ≤ 4294967295 + 1) ∧
      ((Add_uintptr_t_uintptr_t 32 4294967295 1 5).2 = 0 →
        (Add_uintptr_t_uintptr_t 32 4294967295 1 5).1 = 4294967295 + 1)) ∧
    (32 = 32 →
      (Add_int64_t_int64_t (toSigned 64 2147483647) (toSigned 64 1) 5).2 = 0 ∧
      (Add_uint64_t_uint64_t (toUnsigned 64 ((4294967295 : Nat) : Int))
        (toUnsigned 64 ((1 : Nat) : Int)) 5).2 = 0) :=
  ⟨by decide, by decide, by decide, by decide, by decide,
    Add_pointer_width_exact 32 2147483647 1 4294967295 1 5
      (by decide) (by decide) (by decide) (by decide) (by decide)⟩

/-- C20 (evaluation of the code): with 64-bit pointers,
`Add_intptr_t_int32_t(2^40, 1)` leaves 0 in the flag and returns 1, where the
exact sum is `2^40 + 1`: the alias passes the pointer-width operand in the
`int32_t` parameter, which keeps its low 32 bits only. -/
theorem Add_intptr_t_int32_t_truncates_pointer_operand :
    ∀ flag : Int, Add_intptr_t_int32_t 64 1099511627776 1 flag = (1, 0) := by
  intro flag
  simp only [Add_intptr_t_int32_t, Add_int32_t_intptr_t, Add_int64_t_int64_t]
  decide

/-! ## Behaviour of individual routines -/

/-- C21: sign-flip characterisation of `Add_int64_t_int64_t`. With `s` the 64-bit
wraparound sum read as signed, the flag is 1 exactly when both operands are
non-negative and `s < 0`, or both are negative and `s ≥ 0`; for operands of
opposite sign the flag is 0. For same-sign operands the one-sided tests of the
code (`tmp < lhs`, `tmp > lhs`) are equivalent to the sign flip and to the same
test against `rhs`. -/
theorem Add_int64_t_int64_t_sign_flip (lhs rhs flag : Int)
    (hl : InRange_int64_t lhs) (hr : InRange_int64_t rhs) :
    ((Add_int64_t_int64_t lhs rhs flag).2 = 1 ↔
      ((lhs ≥ 0 ∧ rhs ≥ 0 ∧ Add_int64_t_int64_t_tmp lhs rhs < 0) ∨
        (lhs < 0 ∧ rhs < 0 ∧ Add_int64_t_int64_t_tmp lhs rhs ≥ 0))) ∧
    (((lhs ≥ 0 ∧ rhs < 0) ∨ (lhs < 0 ∧ rhs ≥ 0)) →
      (Add_int64_t_int64_t lhs rhs flag).2 = 0) ∧
    ((lhs ≥ 0 ∧ rhs ≥ 0) →
      ((Add_int64_t_int64_t_tmp lhs rhs < lhs ↔ Add_int64_t_int64_t_tmp lhs rhs < 0) ∧
        (Add_int64_t_int64_t_tmp lhs rhs < lhs ↔ Add_int64_t_int64_t_tmp lhs rhs < rhs))) ∧
    ((lhs < 0 ∧ rhs < 0) →
      ((Add_int64_t_int64_t_tmp lhs rhs > lhs ↔ Add_int64_t_int64_t_tmp lhs rhs ≥ 0) ∧
        (Add_int64_t_int64_t_tmp lhs rhs > lhs ↔ Add_int64_t_int64_t_tmp lhs rhs > rhs))) := by
  simp only [InRange_int64_t, INT64_MIN, INT64_MAX] at *
  simp only [Add_int64_t_int64_t, Add_int64_t_int64_t_tmp, toSigned, toUnsigned]
  refine ⟨?_, ?_, ?_, ?_⟩
  all_goals split_ifs <;> simp <;> omega

theorem Add_int64_t_int64_t_sign_flip_witness :
    InRange_int64_t (-9223372036854775808) ∧ InRange_int64_t (-1) ∧
    ((Add_int64_t_int64_t (-9223372036854775808) (-1) 5).2 = 1 ↔
      (((-9223372036854775808 : Int) ≥ 0 ∧ (-1 : Int) ≥ 0 ∧
          Add_int64_t_int64_t_tmp (-9223372036854775808) (-1) < 0) ∨
        ((-9223372036854775808 : Int) < 0 ∧ (-1 : Int) < 0 ∧
          Add_int64_t_int64_t_tmp (-9223372036854775808) (-1) ≥ 0))) ∧
    ((((-9223372036854775808 : Int) ≥ 0 ∧ (-1 : Int) < 0) ∨
        ((-9223372036854775808 : Int) < 0 ∧ (-1 : Int) ≥ 0)) →
      (Add_int64_t_int64_t (-9223372036854775808) (-1) 5).2 = 0) ∧
    (((-9223372036854775808 : Int) ≥ 0 ∧ (-1 : Int) ≥ 0) →
      ((Add_int64_t_int64_t_tmp (-9223372036854775808) (-1) < -9223372036854775808 ↔
          Add_int64_t_int64_t_tmp (-9223372036854775808) (-1) < 0) ∧
        (Add_int64_t_int64_t_tmp (-9223372036854775808) (-1) < -9223372036854775808 ↔
          Add_int64_t_int64_t_tmp (-9223372036854775808) (-1) < -1))) ∧
    (((-9223372036854775808 : Int) < 0 ∧ (-1 : Int) < 0) →
      ((Add_int64_t_int64_t_tmp (-9223372036854775808) (-1) > -9223372036854775808 ↔
          Add_int64_t_int64_t_tmp (-9223372036854775808) (-1) ≥ 0) ∧
        (Add_int64_t_int64_t_tmp (-9223372036854775808) (-1) > -9223372036854775808 ↔
          Add_int64_t_int64_t_tmp (-9223372036854775808) (-1) > -1))) :=
  ⟨by decide, by decide,
    Add_int64_t_int64_t_sign_flip (-9223372036854775808) (-1) 5 (by decide) (by decide)⟩

/-- C22: for every `uint16_t` source value `a`, `Convert_uint16_t_to_int8_t` leaves 0
in the flag exactly when `a ≤ 127` and then returns `a`; the source is promoted
to `int`, so the lower-bound test `a < INT8_MIN` never fires. -/
theorem Convert_uint16_t_to_int8_t_exact (a : Nat) (flag : Int)
    (ha : InRange_uint16_t a) :
    ((Convert_uint16_t_to_int8_t a flag).2 = 0 ↔ a ≤ 127) ∧
    ((Convert_uint16_t_to_int8_t a flag).2 = 0 →
      (Convert_uint16_t_to_int8_t a flag).1 = (a : Int)) ∧
    c_lt uint16_t (a : Int) c_int INT8_MIN = false := by
  simp only [InRange_uint16_t, UINT16_MAX] at ha
  refine ⟨?_, ?_, ?_⟩
  all_goals simp only [Convert_uint16_t_to_int8_t, c_gt, c_lt, commonType, promote, convertTo,
    c_int, uint16_t, INT8_MAX, INT8_MIN, toSigned, toUnsigned]
  all_goals simp
  all_goals (try split_ifs) <;> (try simp) <;> omega

theorem Convert_uint16_t_to_int8_t_exact_witness :
    InRange_uint16_t 127 ∧
    ((Convert_uint16_t_to_int8_t 127 5).2 = 0 ↔ 127 ≤ 127) ∧
    ((Convert_uint16_t_to_int8_t 127 5).2 = 0 →
      (Convert_uint16_t_to_int8_t 127 5).1 = ((127 : Nat) : Int)) ∧
    c_lt uint16_t ((127 : Nat) : Int) c_int INT8_MIN = false :=
  ⟨by decide, Convert_uint16_t_to_int8_t_exact 127 5 (by decide)⟩

/-- C23 (evaluation of the code): with 64-bit pointers, on the source value 5
both `Convert_uintptr_t_to_int64_t` and `Convert_uint64_t_to_intptr_t` leave 1 in
the flag and return 0: the lower limit is converted to the unsigned 64-bit type
of `a`, where it is `2 ^ 63`. -/
theorem Convert_unsigned_64_to_signed_64_rejects_5 :
    ∀ flag : Int,
      Convert_uintptr_t_to_int64_t 64 5 flag = (0, 1) ∧
      Convert_uint64_t_to_intptr_t 64 5 flag = (0, 1) := by
  intro flag
  simp only [Convert_uintptr_t_to_int64_t, Convert_uint64_t_to_intptr_t]
  decide

/-- C24: the absolute-value and negation helpers are exact. For an `int64_t` value
`t < 0`, `getAbsoluteValue_int64_t(t)` is the natural number `-t` (so `2 ^ 63` at
the minimum); for `v ≤ 2 ^ 63`, `SignedNegation_int64_t(v)` is `-v`; and
`SignedNegation_int64_t(getAbsoluteValue_int64_t(t)) = t` for every `int64_t`
value `t`. -/
theorem getAbsoluteValue_SignedNegation_exact (t : Int) (v : Nat)
    (ht : InRange_int64_t t) (hv : v ≤ 2 ^ 63) :
    (t < 0 → (getAbsoluteValue_int64_t t : Int) = -t) ∧
    getAbsoluteValue_int64_t (-9223372036854775808) = 2 ^ 63 ∧
    SignedNegation_int64_t v = -(v : Int) ∧
    SignedNegation_int64_t (getAbsoluteValue_int64_t t) = t := by
  simp only [InRange_int64_t, INT64_MIN, INT64_MAX] at ht
  refine ⟨?_, by decide, SignedNegation_int64_t_eq_neg v hv, ?_⟩
  · intro hneg
    simp only [getAbsoluteValue_int64_t, complement_uint64_t, UINT64_MAX, toUnsigned]
    omega
  · simp only [SignedNegation_int64_t, getAbsoluteValue_int64_t, complement_uint64_t,
      UINT64_MAX, toSigned, toUnsigned]
    split_ifs <;> omega

theorem getAbsoluteValue_SignedNegation_exact_witness :
    InRange_int64_t (-9223372036854775808) ∧ 9223372036854775808 ≤ 2 ^ 63 ∧
    ((-9223372036854775808 : Int) < 0 →
      (getAbsoluteValue_int64_t (-9223372036854775808) : Int) = -(-9223372036854775808)) ∧
    getAbsoluteValue_int64_t (-9223372036854775808) = 2 ^ 63 ∧
    SignedNegation_int64_t 9223372036854775808 = -((9223372036854775808 : Nat) : Int) ∧
    SignedNegation_int64_t (getAbsoluteValue_int64_t (-9223372036854775808))
      = -9223372036854775808 :=
  ⟨by decide, by decide,
    getAbsoluteValue_SignedNegation_exact (-9223372036854775808) 9223372036854775808
      (by decide) (by decide)⟩

/-- C25: for `uint64_t` operands on which `Multiply_uint64_t_uint64_t` reports
success, the value returned is the product of the low 32-bit halves,
`(a mod 2^32) * (b mod 2^32)`; the second half of the routine returns that
product on success whatever the accumulated cross term `pRet` is. -/
theorem Multiply_uint64_t_uint64_t_returns_low_product (a b : Nat) (flag : Int)
    (ha : InRange_uint64_t a) (hb : InRange_uint64_t b) :
    ((Multiply_uint64_t_uint64_t a b flag).2 = 0 →
      (Multiply_uint64_t_uint64_t a b flag).1 = (a % 2 ^ 32) * (b % 2 ^ 32)) ∧
    (∀ pRet : Nat,
      (Multiply_uint64_t_uint64_t_accumulate (a % 2 ^ 32) (b % 2 ^ 32) pRet flag).2 = 0 →
      (Multiply_uint64_t_uint64_t_accumulate (a % 2 ^ 32) (b % 2 ^ 32) pRet flag).1
        = (a % 2 ^ 32) * (b % 2 ^ 32)) := by
  have hLL : a % 2 ^ 32 * (b % 2 ^ 32) < 2 ^ 64 :=
    mul_lt_of_halves _ _ (Nat.mod_lt _ (by norm_num)) (Nat.mod_lt _ (by norm_num))
  have key : ∀ pRet : Nat,
      (Multiply_uint64_t_uint64_t_accumulate (a % 2 ^ 32) (b % 2 ^ 32) pRet flag).2 = 0 →
      (Multiply_uint64_t_uint64_t_accumulate (a % 2 ^ 32) (b % 2 ^ 32) pRet flag).1
        = (a % 2 ^ 32) * (b % 2 ^ 32) := by
    intro pRet
    simp only [Multiply_uint64_t_uint64_t_accumulate, Nat.mod_eq_of_lt hLL]
    split_ifs <;> simp
  refine ⟨?_, key⟩
  simp only [Multiply_uint64_t_uint64_t]
  split_ifs
  all_goals first | exact key _ | simp

theorem Multiply_uint64_t_uint64_t_returns_low_product_witness :
    InRange_uint64_t 12884901893 ∧ InRange_uint64_t 7 ∧
    ((Multiply_uint64_t_uint64_t 12884901893 7 5).2 = 0 →
      (Multiply_uint64_t_uint64_t 12884901893 7 5).1 = (12884901893 % 2 ^ 32) * (7 % 2 ^ 32)) ∧
    (∀ pRet : Nat,
      (Multiply_uint64_t_uint64_t_accumulate (12884901893 % 2 ^ 32) (7 % 2 ^ 32) pRet 5).2 = 0 →
      (Multiply_uint64_t_uint64_t_accumulate (12884901893 % 2 ^ 32) (7 % 2 ^ 32) pRet 5).1
        = (12884901893 % 2 ^ 32) * (7 % 2 ^ 32)) :=
  ⟨by decide, by decide,
    Multiply_uint64_t_uint64_t_returns_low_product 12884901893 7 5 (by decide) (by decide)⟩

end OverflowChecker

/-! # Alignment (`Platform.c`) -/

namespace Platform

open OverflowChecker

/-- The loop started at `x` with more fuel than the distance from `x` to the next
multiple of `P` stops at that multiple, reduced modulo `2 ^ 32`. -/
theorem Increment_and_align_loop_eq (P : Nat) (hP : P = 4 ∨ P = 8) :
    ∀ (fuel x : Nat), x < 2 ^ 32 → (P - x % P) % P < fuel →
      Increment_and_align_loop P fuel x = some ((x + (P - x % P) % P) % 2 ^ 32) := by
  intro fuel
  induction fuel with
  | zero => intro x _ h; omega
  | succ fuel ih =>
    intro x hx hd
    unfold Increment_and_align_loop
    by_cases hz : x % P = 0
    · rw [if_neg (by simpa using hz)]
      rcases hP with rfl | rfl <;> congr 1 <;> omega
    · rw [if_pos hz]
      have h1 : (x + 1) % 2 ^ 32 < 2 ^ 32 := Nat.mod_lt _ (by norm_num)
      rcases hP with rfl | rfl
      · rw [ih ((x + 1) % 2 ^ 32) h1 (by omega)]
        congr 1
        omega
      · rw [ih ((x + 1) % 2 ^ 32) h1 (by omega)]
        congr 1
        omega

/-- C26: for pointer size `P` in {4, 8} and `uint32_t` values `offset`, `increment`,
let `s = (offset + increment) mod 2^32`. There is a least multiple `M` of `P` with
`M ≥ s`; the loop of `Increment_and_align` terminates (any fuel of at least `P`
evaluations of the condition suffices) and the routine returns `M mod 2^32`. The
result is a multiple of `P`, and when `s ≤ 2^32 - P` it lies in `[s, s + P)`. -/
theorem Increment_and_align_least_multiple (P offset increment : Nat)
    (hP : P = 4 ∨ P = 8)
    (ho : InRange_uint32_t offset) (hi : InRange_uint32_t increment) :
    ∃ M : Nat,
      (P ∣ M ∧ (offset + increment) % 2 ^ 32 ≤ M ∧
        ∀ k : Nat, P ∣ k → (offset + increment) % 2 ^ 32 ≤ k → M ≤ k) ∧
      (∀ fuel : Nat, P ≤ fuel →
        Increment_and_align P offset increment fuel = some (M % 2 ^ 32)) ∧
      (M % 2 ^ 32) % P = 0 ∧
      ((offset + increment) % 2 ^ 32 ≤ 2 ^ 32 - P →
        (offset + increment) % 2 ^ 32 ≤ M % 2 ^ 32 ∧
        M % 2 ^ 32 < (offset + increment) % 2 ^ 32 + P) := by
  have hs : (offset + increment) % 2 ^ 32 < 2 ^ 32 := Nat.mod_lt _ (by norm_num)
  simp only [Increment_and_align]
  generalize (offset + increment) % 2 ^ 32 = s at hs
  refine ⟨s + (P - s % P) % P, ⟨?_, ?_, ?_⟩, ?_, ?_, ?_⟩
  · rcases hP with rfl | rfl <;> omega
  · omega
  · intro k hk hsk
    rcases hP with rfl | rfl <;> omega
  · intro fuel hfuel
    rw [Increment_and_align_loop_eq P hP fuel s hs (by rcases hP with rfl | rfl <;> omega)]
  · rcases hP with rfl | rfl <;> omega
  · intro hle
    rcases hP with rfl | rfl <;> omega

theorem Increment_and_align_least_multiple_witness :
    (8 = 4 ∨ 8 = 8) ∧ InRange_uint32_t 4294967290 ∧ InRange_uint32_t 3 ∧
    ∃ M : Nat,
      (8 ∣ M ∧ (4294967290 + 3) % 2 ^ 32 ≤ M ∧
        ∀ k : Nat, 8 ∣ k → (4294967290 + 3) % 2 ^ 32 ≤ k → M ≤ k) ∧
      (∀ fuel : Nat, 8 ≤ fuel →
        Increment_and_align 8 4294967290 3 fuel = some (M % 2 ^ 32)) ∧
      (M % 2 ^ 32) % 8 = 0 ∧
      ((4294967290 + 3) % 2 ^ 32 ≤ 2 ^ 32 - 8 →
        (4294967290 + 3) % 2 ^ 32 ≤ M % 2 ^ 32 ∧
        M % 2 ^ 32 < (4294967290 + 3) % 2 ^ 32 + 8) :=
  ⟨by decide, by decide, by decide,
    Increment_and_align_least_multiple 8 4294967290 3 (by decide) (by decide) (by decide)⟩

end Platform
